import Mathlib

/-!
# kubectl-nine: status aggregation layer (`cmd/common.go`, `cmd/client.go`)

A shallow embedding of the readiness checkers, status formatters, list renderers,
suggestion lookup and shell helper of package `cmd`, followed by the theorems that
settle the specification's claims about them.

Conventions of the embedding

* A Go `error` is a `GoError`; a nil error is `none`.
* A function that can hit a run-time panic (nil pointer dereference) returns
  `Option`: `none` is the panic, `some v` is a normal return of `v`.
* The cluster and the process environment are an explicit `World` value that the
  functions read; every call re-resolves the kubeconfig and rebuilds its client,
  exactly as the source does.
* A Go `map` is the list of its entries in the order the `range` statement visits
  them; theorems quantify over that order.
* Machine integers (`int32`, `int`, `int64`) are `Int`; no arithmetic in this file
  can overflow except `time.Time.Sub`, which saturates and is modelled so.
-/

namespace cmd

/-! ## Go values -/

/-- A Go `error`: its `Error()` text and whether `errors.IsNotFound` holds for it. -/
structure GoError where
  msg : String
  notFound : Bool
deriving DecidableEq, Repr

/-- The predicate `errors.IsNotFound` of `k8s.io/apimachinery/pkg/api/errors`. -/
def IsNotFound (e : GoError) : Bool := e.notFound

/-- The verb `%d` of `fmt`: a signed integer in decimal. -/
def fmtD (n : Int) : String := toString n

/-- A Go `map[string]string` read at key `k`: the zero value `""` when absent. -/
def mapGet (m : List (String × String)) (k : String) : String :=
  match m.lookup k with
  | some v => v
  | none => ""

/-! ## Time -/

/-- Largest `time.Duration` (an `int64` count of nanoseconds). -/
def maxDuration : Int := 2 ^ 63 - 1

/-- Smallest `time.Duration`. -/
def minDuration : Int := -(2 ^ 63)

/-- The method `time.Time.Sub`: the difference in nanoseconds, saturated to the
range of `time.Duration`. Instants are nanoseconds since the epoch. -/
def timeSub (t u : Int) : Int :=
  if t - u > maxDuration then maxDuration
  else if t - u < minDuration then minDuration
  else t - u

/-- The constant `time.Second`, in nanoseconds. -/
def Second : Int := 1000000000

/-- The constant `time.Minute`. -/
def Minute : Int := 60 * Second

/-- The constant `time.Hour`. -/
def Hour : Int := 60 * Minute

end cmd

namespace duration

open cmd

/-- The function `HumanDuration` of `k8s.io/apimachinery/pkg/util/duration`, the
library that `cmd/common.go` imports (line 13) and calls at line 84. The library is
a dependency, not part of this repository; this is its upstream body. `d` is a
`time.Duration` in nanoseconds. `int(d.Seconds())` is the truncated quotient: the
floating-point value is only compared with -1, 0 and 120 and printed below 120,
where it is exact. -/
def HumanDuration (d : Int) : String :=
  let seconds := d.tdiv Second
  if seconds < -1 then "<invalid>"
  else if seconds < 0 then "0s"
  else if seconds < 60 * 2 then fmtD seconds ++ "s"
  else
    let minutes := d.tdiv Minute
    if minutes < 10 then
      let s := (d.tdiv Second).tmod 60
      if s = 0 then fmtD minutes ++ "m"
      else fmtD minutes ++ "m" ++ fmtD s ++ "s"
    else if minutes < 60 * 3 then fmtD minutes ++ "m"
    else
      let hours := d.tdiv Hour
      if hours < 8 then
        let m := (d.tdiv Minute).tmod 60
        if m = 0 then fmtD hours ++ "h"
        else fmtD hours ++ "h" ++ fmtD m ++ "m"
      else if hours < 48 then fmtD hours ++ "h"
      else if hours < 24 * 8 then
        let h := hours.tmod 24
        if h = 0 then fmtD (hours.tdiv 24) ++ "d"
        else fmtD (hours.tdiv 24) ++ "d" ++ fmtD h ++ "h"
      else if hours < 24 * 365 * 2 then fmtD (hours.tdiv 24) ++ "d"
      else if hours < 24 * 365 * 8 then
        let dy := (hours.tdiv 24).tmod 365
        if dy = 0 then fmtD ((hours.tdiv 24).tdiv 365) ++ "y"
        else fmtD ((hours.tdiv 24).tdiv 365) ++ "y" ++ fmtD dy ++ "d"
      else fmtD ((hours.tdiv 24).tdiv 365) ++ "y"

end duration

namespace cmd

/-! ## Resources read from the cluster -/

/-- The fields of `appsv1.StatefulSet` that the package reads. `Replicas` is
`Spec.Replicas`, of Go type `*int32`: `none` is the nil pointer. -/
structure StatefulSet where
  Replicas : Option Int
  ReadyReplicas : Int
  CreationTimestamp : Int
deriving DecidableEq, Repr

/-- The fields of `appsv1.Deployment` that the package reads; `Replicas` is
`Spec.Replicas`, of Go type `*int32`. -/
structure Deployment where
  Replicas : Option Int
  ReadyReplicas : Int
  CreationTimestamp : Int
deriving DecidableEq, Repr

/-- The fields of `cnpgv1.Cluster` that the package reads; `Instances` is
`Spec.Instances`, a plain `int`. -/
structure PGCluster where
  Instances : Int
  ReadyInstances : Int
  CreationTimestamp : Int
deriving DecidableEq, Repr

/-- The type `corev1.ServiceType`, a string. -/
abbrev ServiceType := String

/-- The constant `corev1.ServiceTypeClusterIP`. -/
def ServiceTypeClusterIP : ServiceType := "ClusterIP"

/-- The constant `corev1.ServiceTypeNodePort`. -/
def ServiceTypeNodePort : ServiceType := "NodePort"

/-- One `corev1.ServicePort`. -/
structure ServicePort where
  Name : String
  Port : Int
  NodePort : Int
deriving DecidableEq, Repr

/-- The fields of `corev1.Service` (its `Spec`) that the package reads. -/
structure Service where
  SvcType : ServiceType
  ClusterIP : String
  Ports : List ServicePort
deriving DecidableEq, Repr

/-- The field of `rest.Config` that the package reads. -/
structure RestConfig where
  Host : String
deriving DecidableEq, Repr

/-- Everything outside the process that the package observes: the kubeconfig flag,
client configuration loading, client construction, the API server's answers to the
`Get` requests, the Helm release probe and the clock. -/
structure World where
  /-- Value of the root command's `kubeconfig` flag. -/
  kubeconfig : String
  /-- The call `kubeConfig.ClientConfig()` for loading rules with the given explicit path. -/
  ClientConfig : String → Except GoError RestConfig
  /-- The constructor `kubernetes.NewForConfig`; the client is identified with its config. -/
  kubernetesNewForConfig : RestConfig → Except GoError RestConfig
  /-- The constructor `pgoperatorv1.NewForConfig`. -/
  pgoperatorNewForConfig : RestConfig → Except GoError RestConfig
  /-- The request `client.AppsV1().StatefulSets(namespace).Get(name)`. -/
  getStatefulSet : RestConfig → String → String → Except GoError StatefulSet
  /-- The request `client.AppsV1().Deployments(namespace).Get(name)`. -/
  getDeployment : RestConfig → String → String → Except GoError Deployment
  /-- The request `client.PostgresqlV1().Clusters(namespace).Get(name)`. -/
  getPGCluster : RestConfig → String → String → Except GoError PGCluster
  /-- The request `client.CoreV1().Services(ns).Get(svcName)`. -/
  getService : RestConfig → String → String → Except GoError Service
  /-- The function `CheckHelmReleaseExist(name, namespace)`, defined outside the shown files. -/
  CheckHelmReleaseExist : String → String → Bool
  /-- The instant `metav1.Now()`, nanoseconds since the epoch. -/
  now : Int

/-! ## `cmd/client.go` -/

/-- Go: `GetKubeClient` (client.go 12-29). -/
def GetKubeClient (w : World) (path : String) : Except GoError RestConfig :=
  match w.ClientConfig path with
  | .error err => .error err
  | .ok config =>
    match w.kubernetesNewForConfig config with
    | .error err => .error err
    | .ok kubeClientset => .ok kubeClientset

/-- Go: `GetKubeClientWithConfig` (client.go 31-48). -/
def GetKubeClientWithConfig (w : World) (path : String) :
    Except GoError (RestConfig × RestConfig) :=
  match w.ClientConfig path with
  | .error err => .error err
  | .ok config =>
    match w.kubernetesNewForConfig config with
    | .error err => .error err
    | .ok kubeClientset => .ok (kubeClientset, config)

/-- Go: `GetPGOperatorClient` (client.go 99-117). -/
def GetPGOperatorClient (w : World) (path : String) : Except GoError RestConfig :=
  match w.ClientConfig path with
  | .error err => .error err
  | .ok config =>
    match w.pgoperatorNewForConfig config with
    | .error err => .error err
    | .ok kubeClientset => .ok kubeClientset

/-! ## `cmd/common.go`: shell helper -/

/-- What `cmd.Run()` leaves behind: the two capture buffers and the error. -/
structure ProcResult where
  output : String
  errput : String
  err : Option GoError
deriving DecidableEq, Repr

/-- Go: `runCommand` (common.go 30-45). `run` is the operating system: what running
`command` with `args` leaves in the stdout and stderr buffers and the error of
`cmd.Run()`. The `DEBUG` trace only prints. -/
def runCommand (run : String → List String → ProcResult) (command : String)
    (args : List String) : String × String × Option GoError :=
  let p := run command args
  let err := if p.output.length ≠ 0 then none else p.err
  (p.output, p.errput, err)

/-! ## `cmd/common.go`: readiness and age -/

/-- Go: `HumanDuration` (common.go 83-85). -/
def HumanDuration (w : World) (t : Int) : String :=
  duration.HumanDuration (timeSub w.now t)

/-- The package-level tables and constants that the shown files read but do not
declare (they live elsewhere in package `cmd`); only looked up by key here. -/
structure Tables where
  NineClusterProjectNameSuffix : List (String × String)
  DefaultToolsNamePrefix : String
  NineToolSvcList : List (String × String)
  NineToolPortNameList : List (String × String)
  NineToolPortProtocolList : List (String × String)

/-- Go: `NineWorkLoadName` (common.go 87-89). -/
def NineWorkLoadName (c : Tables) (name project : String) : String :=
  name ++ mapGet c.NineClusterProjectNameSuffix project

/-- Go: `NineToolResourceName` (common.go 91-93). -/
def NineToolResourceName (c : Tables) (suffix : String) : String :=
  c.DefaultToolsNamePrefix ++ suffix

/-- Go: `CheckStsIfReady` (common.go 95-106). `none` is the panic of `*sts.Spec.Replicas`
on a nil pointer. -/
def CheckStsIfReady (w : World) (name ns : String) : Option Bool :=
  match GetKubeClient w w.kubeconfig with
  | .error _ => some false
  | .ok client =>
    match w.getStatefulSet client ns name with
    | .error _ => some false
    | .ok sts =>
      match sts.Replicas with
      | none => none
      | some replicas => some (decide (sts.ReadyReplicas = replicas))

/-- Go: `CheckDeployIfReady` (common.go 108-119). `none` is the panic of
`*deploy.Spec.Replicas` on a nil pointer. -/
def CheckDeployIfReady (w : World) (name ns : String) : Option Bool :=
  match GetKubeClient w w.kubeconfig with
  | .error _ => some false
  | .ok client =>
    match w.getDeployment client ns name with
    | .error _ => some false
    | .ok deploy =>
      match deploy.Replicas with
      | none => none
      | some replicas => some (decide (deploy.ReadyReplicas = replicas))

/-- Go: `PrintStsReadyAndAge` (common.go 121-137). -/
def PrintStsReadyAndAge (w : World) (name ns : String) : Option (String × String) :=
  match GetKubeClient w w.kubeconfig with
  | .error _ => some ("", "")
  | .ok client =>
    match w.getStatefulSet client ns name with
    | .error err => if IsNotFound err then some ("0/0", "0s") else some ("", "")
    | .ok sts =>
      match sts.Replicas with
      | none => none
      | some replicas =>
        some (fmtD sts.ReadyReplicas ++ "/" ++ fmtD replicas,
              HumanDuration w sts.CreationTimestamp)

/-- Go: `PrintDeployReadyAndAge` (common.go 139-155). -/
def PrintDeployReadyAndAge (w : World) (name ns : String) : Option (String × String) :=
  match GetKubeClient w w.kubeconfig with
  | .error _ => some ("", "")
  | .ok client =>
    match w.getDeployment client ns name with
    | .error err => if IsNotFound err then some ("0/0", "0s") else some ("", "")
    | .ok deploy =>
      match deploy.Replicas with
      | none => none
      | some replicas =>
        some (fmtD deploy.ReadyReplicas ++ "/" ++ fmtD replicas,
              HumanDuration w deploy.CreationTimestamp)

/-- Go: `IfPGReady` (common.go 157-159). -/
def IfPGReady (pg : PGCluster) : Bool :=
  decide (pg.ReadyInstances = pg.Instances)

/-- Go: `CheckPGClusterIfReady` (common.go 161-172). -/
def CheckPGClusterIfReady (w : World) (name ns : String) : Bool :=
  match GetPGOperatorClient w w.kubeconfig with
  | .error _ => false
  | .ok client =>
    match w.getPGCluster client ns name with
    | .error _ => false
    | .ok pg => IfPGReady pg

/-- Go: `PrintPGClusterReadyAndAge` (common.go 174-190). -/
def PrintPGClusterReadyAndAge (w : World) (name ns : String) : String × String :=
  match GetPGOperatorClient w w.kubeconfig with
  | .error _ => ("", "")
  | .ok client =>
    match w.getPGCluster client ns name with
    | .error err => if IsNotFound err then ("0/0", "0s") else ("", "")
    | .ok pg =>
      (fmtD pg.ReadyInstances ++ "/" ++ fmtD pg.Instances,
       HumanDuration w pg.CreationTimestamp)

/-! ## `cmd/common.go`: cluster readiness -/

/-- Go: `CheckClusterIfReady` (common.go 192-206). `order` is the table
`NineClusterProjectWorkloadList` in the order the `range` visits it. -/
def CheckClusterIfReady (w : World) (c : Tables) (order : List (String × String))
    (name ns : String) : Option Bool :=
  match order with
  | [] => some true
  | (k, v) :: rest =>
    if v = "statefulset" then
      match CheckStsIfReady w (NineWorkLoadName c name k) ns with
      | none => none
      | some ready =>
        if !ready then some false else CheckClusterIfReady w c rest name ns
    else if v = "cluster" then
      if !CheckPGClusterIfReady w (NineWorkLoadName c name k) ns then some false
      else CheckClusterIfReady w c rest name ns
    else CheckClusterIfReady w c rest name ns

/-! ## `cmd/common.go`: service access -/

/-- The class `\d` of Go `regexp`: an ASCII digit. -/
def isDigit (ch : Char) : Bool := decide (48 ≤ ch.toNat ∧ ch.toNat ≤ 57)

/-- The ASCII word characters that `\b` of Go `regexp` looks at: `[0-9A-Za-z_]`. -/
def isWordChar (ch : Char) : Bool :=
  isDigit ch || decide (65 ≤ ch.toNat ∧ ch.toNat ≤ 90) ||
    decide (97 ≤ ch.toNat ∧ ch.toNat ≤ 122) || decide (ch = '_')

/-- Whether a position is a word character; the text's ends are not. -/
def isWordAt (ch : Option Char) : Bool :=
  match ch with
  | some x => isWordChar x
  | none => false

/-- The pieces of the expression compiled at common.go 319. -/
inductive Atom where
  | boundary
  | digits13
  | dot
deriving DecidableEq, Repr

/-- The expression at common.go 319, piece by piece:
boundary, then four groups of one to three digits separated by dots, then boundary. -/
def ipPattern : List Atom :=
  [.boundary, .digits13, .dot, .digits13, .dot, .digits13, .dot, .digits13, .boundary]

/-- One alternative of the greedy `\d{1,3}`: exactly `n` digits, then the rest `k`
of the expression. -/
def digitsThen (n : Nat) (s : List Char)
    (k : Option Char → List Char → Option (List Char)) : Option (List Char) :=
  if n ≤ s.length ∧ (s.take n).all isDigit = true then
    (k (s.take n).getLast? (s.drop n)).map (fun m => s.take n ++ m)
  else none

/-- Backtracking match of a list of pieces at the head of `s`, where `prev` is the
character before `s`; the matched text when there is a match. Greedy repetition
tries three digits, then two, then one, as Go's leftmost-first semantics does. -/
def matchHere : List Atom → Option Char → List Char → Option (List Char)
  | [], _, _ => some []
  | .boundary :: ps, prev, s =>
    if isWordAt prev != isWordAt s.head? then matchHere ps prev s else none
  | .dot :: ps, _, s =>
    match s with
    | [] => none
    | x :: xs => if x = '.' then (matchHere ps (some x) xs).map (fun m => x :: m) else none
  | .digits13 :: ps, _, s =>
    match digitsThen 3 s (matchHere ps) with
    | some m => some m
    | none =>
      match digitsThen 2 s (matchHere ps) with
      | some m => some m
      | none => digitsThen 1 s (matchHere ps)

/-- The leftmost match of the expression in `s`, scanning start positions left to
right. -/
def findFrom (prev : Option Char) : List Char → Option (List Char)
  | [] => matchHere ipPattern prev []
  | x :: xs =>
    match matchHere ipPattern prev (x :: xs) with
    | some m => some m
    | none => findFrom (some x) xs

/-- The call `re.FindString(host)` of common.go 319-320: the text of the leftmost
match, or `""` when there is none. -/
def FindString (host : String) : String :=
  match findFrom none host.data with
  | some m => String.mk m
  | none => ""

/-- The loop of common.go 313-317: the `Port` of the last port named `portName`,
starting from the zero value. -/
def lastPort (ports : List ServicePort) (portName : String) (acc : Int) : Int :=
  match ports with
  | [] => acc
  | v :: rest => lastPort rest portName (if v.Name = portName then v.Port else acc)

/-- The loop of common.go 321-325: the `NodePort` of the last port named `portName`. -/
def lastNodePort (ports : List ServicePort) (portName : String) (acc : Int) : Int :=
  match ports with
  | [] => acc
  | v :: rest => lastNodePort rest portName (if v.Name = portName then v.NodePort else acc)

/-- Go: `GetSvcAccessInfo` (common.go 298-328). -/
def GetSvcAccessInfo (w : World) (svcName portName ns : String) : String × Int :=
  match GetKubeClientWithConfig w w.kubeconfig with
  | .error _ => ("", 0)
  | .ok (client, config) =>
    match w.getService client ns svcName with
    | .error _ => ("", 0)
    | .ok svc =>
      if svc.SvcType = ServiceTypeClusterIP then
        (svc.ClusterIP, lastPort svc.Ports portName 0)
      else if svc.SvcType = ServiceTypeNodePort then
        (FindString config.Host, lastNodePort svc.Ports portName 0)
      else ("", 0)

/-- Go: `PrintToolAccessInfo` (common.go 208-216). -/
def PrintToolAccessInfo (w : World) (c : Tables) (name ns : String) : String :=
  let svcName := NineToolResourceName c (mapGet c.NineToolSvcList name)
  let r := GetSvcAccessInfo w svcName (mapGet c.NineToolPortNameList name) ns
  if mapGet c.NineToolPortProtocolList name ≠ "" then
    mapGet c.NineToolPortProtocolList name ++ "://" ++ r.1 ++ ":" ++ fmtD r.2
  else
    r.1 ++ ":" ++ fmtD r.2

/-! ## `cmd/common.go`: list renderers -/

/-- The five string arguments of one `fmt.Printf` call that prints a table row. -/
structure Row where
  c1 : String
  c2 : String
  c3 : String
  c4 : String
  c5 : String
deriving DecidableEq, Repr

/-- The verb `%-Ns` of `fmt`: the text, padded with spaces on the right to `width`. -/
def padRight (width : Nat) (s : String) : String :=
  s ++ String.mk (List.replicate (width - s.length) ' ')

/-- The format `PrintFmtStrToolList` (common.go 22) applied to a row. -/
def PrintFmtStrToolList (r : Row) : String :=
  padRight 20 r.c1 ++ "\t" ++ padRight 10 r.c2 ++ "\t" ++ padRight 10 r.c3 ++ "\t" ++
    padRight 10 r.c4 ++ "\t" ++ padRight 10 r.c5 ++ "\n"

/-- The format `PrintFmtStrClusterProjectList` (common.go 23) applied to a row. -/
def PrintFmtStrClusterProjectList (r : Row) : String :=
  padRight 40 r.c1 ++ "\t" ++ padRight 10 r.c2 ++ "\t" ++ padRight 10 r.c3 ++ "\t" ++
    padRight 10 r.c4 ++ "\t" ++ padRight 10 r.c5 ++ "\n"

/-- What a renderer did: the rows it printed, in order, and whether it returned
(`false`: it stopped in a panic after printing `rows`). -/
structure Printed where
  rows : List Row
  returned : Bool
deriving DecidableEq, Repr

/-- Prepend a printed row to what the rest of the loop prints. -/
def Printed.push (r : Row) (p : Printed) : Printed :=
  { rows := r :: p.rows, returned := p.returned }

/-- The text written to standard output by a project-list renderer. -/
def Printed.projectText (p : Printed) : String :=
  String.join (p.rows.map PrintFmtStrClusterProjectList)

/-- The text written to standard output by a tool-list renderer. -/
def Printed.toolText (p : Printed) : String :=
  String.join (p.rows.map PrintFmtStrToolList)

/-- Go: `PrintClusterProjectList` (common.go 218-233). `order` is the table
`NineClusterProjectWorkloadList` in the order the `range` visits it. -/
def PrintClusterProjectList (w : World) (c : Tables) (order : List (String × String))
    (name ns : String) : Printed :=
  match order with
  | [] => { rows := [], returned := true }
  | (k, v) :: rest =>
    if v = "statefulset" then
      match PrintStsReadyAndAge w (NineWorkLoadName c name k) ns with
      | none => { rows := [], returned := false }
      | some (ready, age) =>
        if ready ≠ "" ∧ age ≠ "" then
          (PrintClusterProjectList w c rest name ns).push
            ⟨NineWorkLoadName c name k, k, v, ready, age⟩
        else PrintClusterProjectList w c rest name ns
    else if v = "cluster" then
      match PrintPGClusterReadyAndAge w (NineWorkLoadName c name k) ns with
      | (ready, age) =>
        if ready ≠ "" ∧ age ≠ "" then
          (PrintClusterProjectList w c rest name ns).push
            ⟨NineWorkLoadName c name k, k, v, ready, age⟩
        else PrintClusterProjectList w c rest name ns
    else PrintClusterProjectList w c rest name ns

/-- Go: `PrintNineCluster` (common.go 281-284), for a cluster with the given name
and namespace: the header, then the project rows. -/
def PrintNineCluster (w : World) (c : Tables) (order : List (String × String))
    (name ns : String) : Printed :=
  (PrintClusterProjectList w c order name ns).push ⟨"NAME", "PROJECT", "TYPE", "READY", "AGE"⟩

/-- The inner loop of `PrintClusterToolList` (common.go 242-257) over the
sub-workloads of one tool: the counters `readys` and `notreadys` after the loop, or
`none` when a readiness check panics. -/
def countReadys (w : World) (c : Tables) (subs : List (String × String)) (ns : String)
    (readys notreadys : Nat) : Option (Nat × Nat) :=
  match subs with
  | [] => some (readys, notreadys)
  | (s, k) :: rest =>
    if k = "statefulset" then
      match CheckStsIfReady w (NineToolResourceName c s) ns with
      | none => none
      | some ready =>
        if ready then countReadys w c rest ns (readys + 1) notreadys
        else countReadys w c rest ns readys (notreadys + 1)
    else if k = "deployment" then
      match CheckDeployIfReady w (NineToolResourceName c s) ns with
      | none => none
      | some ready =>
        if ready then countReadys w c rest ns (readys + 1) notreadys
        else countReadys w c rest ns readys (notreadys + 1)
    else countReadys w c rest ns readys notreadys

/-- Go: `PrintClusterToolList` (common.go 235-262). `tools` is the table
`NineToolList` in the order the `range` visits it, each value already seen as the
`map[string]string` the source asserts it to be, in its own iteration order. -/
def PrintClusterToolList (w : World) (c : Tables)
    (tools : List (String × List (String × String))) (name ns : String) : Printed :=
  match tools with
  | [] => { rows := [], returned := true }
  | (k, v) :: rest =>
    if !w.CheckHelmReleaseExist (NineToolResourceName c k) ns then
      PrintClusterToolList w c rest name ns
    else
      match countReadys w c v ns 0 0 with
      | none => { rows := [], returned := false }
      | some (readys, notreadys) =>
        if readys ≠ 0 ∨ notreadys ≠ 0 then
          (PrintClusterToolList w c rest name ns).push
            ⟨name, k, fmtD readys ++ "/" ++ fmtD (readys + notreadys), ns,
              PrintToolAccessInfo w c k ns⟩
        else PrintClusterToolList w c rest name ns

/-! ## `cmd/common.go`: suggestion lookup -/

/-- Whether `sub` occurs in `s` as a contiguous block, on character lists. -/
def containsChars (s sub : List Char) : Bool :=
  match s with
  | [] => sub.isEmpty
  | x :: xs => sub.isPrefixOf (x :: xs) || containsChars xs sub

/-- The function `strings.Contains`. -/
def Contains (s substr : String) : Bool := containsChars s.data substr.data

/-- The table `Err2Suggestions` (common.go 26-28), as written. -/
def Err2Suggestions : List (String × String) :=
  [("connection timed out",
    "If you run the nine out of the k8s? or if the status of the NineCluster is not ready?")]

/-- The value returned at common.go 294-295. -/
def fallbackSuggestion : String :=
  "I'm sorry, this error is not in my knowledge base. \n" ++
    "Could you please submit an issue on GitHub to help me improve my knowledge base? Thank you!"

/-- The loop of common.go 288-292 over the entries in the order the `range` visits
them: the hint of the first visited key contained in `msg`, if any. -/
def firstSuggestion (order : List (String × String)) (msg : String) : Option String :=
  match order with
  | [] => none
  | (k, v) :: rest => if Contains msg k then some v else firstSuggestion rest msg

/-- Go: `GiveSuggestionsByError` (common.go 286-296). `order` is the table
`Err2Suggestions` in the order the `range` visits it; `err = none` is the nil error. -/
def GiveSuggestionsByError (order : List (String × String)) (err : Option GoError) : String :=
  match err with
  | some e =>
    match firstSuggestion order e.msg with
    | some v => v
    | none => fallbackSuggestion
  | none => fallbackSuggestion

/-- The claim's reading of the lookup: the hint of the first key, in the order the
table was written, contained in the message; the fallback when there is none or
the error is nil. -/
def suggestionByInsertionOrder (table : List (String × String)) (err : Option GoError) :
    String :=
  match err with
  | some e =>
    match table.find? (fun kv => Contains e.msg kv.1) with
    | some kv => kv.2
    | none => fallbackSuggestion
  | none => fallbackSuggestion

/-! ## Concrete worlds, tables and predicates used in the statements below -/

/-- A world with a reachable API server at 192.168.1.10 whose answers depend on the
resource name only. -/
def worldOf (sts : String → Except GoError StatefulSet)
    (deploy : String → Except GoError Deployment)
    (pg : String → Except GoError PGCluster)
    (svc : String → Except GoError Service)
    (helm : String → Bool) : World :=
  { kubeconfig := ""
    ClientConfig := fun _ => .ok ⟨"https://192.168.1.10:6443"⟩
    kubernetesNewForConfig := fun cfg => .ok cfg
    pgoperatorNewForConfig := fun cfg => .ok cfg
    getStatefulSet := fun _ _ name => sts name
    getDeployment := fun _ _ name => deploy name
    getPGCluster := fun _ _ name => pg name
    getService := fun _ _ name => svc name
    CheckHelmReleaseExist := fun name _ => helm name
    now := 1700000000 * Second }

/-- The error of a `Get` on a resource that does not exist. -/
def errNotFound : GoError := ⟨"the server could not find the requested resource", true⟩

/-- The error of a `Get` that could not reach the server. -/
def errTimeout : GoError := ⟨"dial tcp 192.168.1.10:6443: connect: connection timed out", false⟩

/-- A world in which every StatefulSet and Deployment is found with a nil
`Spec.Replicas` and nothing else exists. -/
def nilReplicasWorld : World :=
  worldOf (fun _ => .ok ⟨none, 0, 0⟩) (fun _ => .ok ⟨none, 0, 0⟩)
    (fun _ => .error errNotFound) (fun _ => .error errNotFound) (fun _ => false)

/-- A world in which every workload is found with 2 of 3 replicas (instances) ready,
created one hour before now. -/
def twoOfThreeWorld : World :=
  worldOf (fun _ => .ok ⟨some 3, 2, 1700000000 * Second - Hour⟩)
    (fun _ => .ok ⟨some 3, 2, 1700000000 * Second - Hour⟩)
    (fun _ => .ok ⟨3, 2, 1700000000 * Second - Hour⟩)
    (fun _ => .error errNotFound) (fun _ => true)

/-- A world in which no workload exists. -/
def emptyWorld : World :=
  worldOf (fun _ => .error errNotFound) (fun _ => .error errNotFound)
    (fun _ => .error errNotFound) (fun _ => .error errNotFound) (fun _ => false)

/-! ## Outcomes of a fetch, in terms of the world -/

/-- The client was built and the `Get` failed with a not-found error. -/
def fetchNotFound {α : Type} (client : Except GoError RestConfig)
    (get : RestConfig → Except GoError α) : Prop :=
  ∃ cl e, client = .ok cl ∧ get cl = .error e ∧ IsNotFound e = true

/-- Client construction failed, or the `Get` failed with an error that is not
not-found. -/
def fetchOtherError {α : Type} (client : Except GoError RestConfig)
    (get : RestConfig → Except GoError α) : Prop :=
  (∃ e, client = .error e) ∨ ∃ cl e, client = .ok cl ∧ get cl = .error e ∧ IsNotFound e = false

/-- The client was built and the `Get` returned the resource. -/
def fetchFound {α : Type} (client : Except GoError RestConfig)
    (get : RestConfig → Except GoError α) : Prop :=
  ∃ cl x, client = .ok cl ∧ get cl = .ok x

/-- Tables of the shape the package declares: name suffixes of two projects, the
tool name prefix, and the service, port name and protocol of two tools. -/
def sampleTables : Tables :=
  { NineClusterProjectNameSuffix := [("minio", "-nine-minio"), ("postgresql", "-nine-pg")]
    DefaultToolsNamePrefix := "nineinfra-"
    NineToolSvcList := [("superset", "superset"), ("zeppelin", "zeppelin")]
    NineToolPortNameList := [("superset", "http"), ("zeppelin", "web")]
    NineToolPortProtocolList := [("superset", "http")] }

/-- A project-to-kind table with one project of each kind. -/
def sampleProjects : List (String × String) :=
  [("minio", "statefulset"), ("postgresql", "cluster")]

/-- A hint table with two keys, in the order it is written. -/
def twoKeyTable : List (String × String) :=
  [("connection", "check the network"), ("timed out", "retry later")]

/-- The same table as a `range` may visit it: the second key first. -/
def twoKeyVisit : List (String × String) :=
  [("timed out", "retry later"), ("connection", "check the network")]

/-- One to three ASCII digits: what one group of the expression can match. -/
abbrev isDigitGroup (a : List Char) : Prop :=
  1 ≤ a.length ∧ a.length ≤ 3 ∧ ∀ x ∈ a, isDigit x = true

/-- A world with two tool services: `nineinfra-zeppelin`, of type NodePort with node
port 31000 on its port "web", and `nineinfra-superset`, of type ClusterIP at
10.96.0.15 with port 8088 on its port "http". -/
def toolServiceWorld : World :=
  worldOf (fun _ => .error errNotFound) (fun _ => .error errNotFound)
    (fun _ => .error errNotFound)
    (fun name =>
      if name = "nineinfra-zeppelin" then
        .ok ⟨ServiceTypeNodePort, "10.96.0.20", [⟨"web", 8080, 31000⟩]⟩
      else if name = "nineinfra-superset" then
        .ok ⟨ServiceTypeClusterIP, "10.96.0.15", [⟨"http", 8088, 0⟩]⟩
      else .error errNotFound)
    (fun _ => true)

/-- What the status formatter of a project's kind returns for the project:
`PrintStsReadyAndAge` for "statefulset", `PrintPGClusterReadyAndAge` for "cluster";
`none` when the formatter does not return, or the kind has no formatter. -/
def projectFormatter (w : World) (c : Tables) (name ns k v : String) :
    Option (String × String) :=
  if v = "statefulset" then PrintStsReadyAndAge w (NineWorkLoadName c name k) ns
  else if v = "cluster" then some (PrintPGClusterReadyAndAge w (NineWorkLoadName c name k) ns)
  else none

/-- A world in which the StatefulSet of the minio project does not exist and the
fetch of the PostgreSQL cluster times out. -/
def absentAndTimeoutWorld : World :=
  worldOf (fun _ => .error errNotFound) (fun _ => .error errNotFound)
    (fun _ => .error errTimeout) (fun _ => .error errNotFound) (fun _ => false)

/-- A tool table of the shape the package declares: each tool with the kinds of its
sub-workloads. -/
def sampleTools : List (String × List (String × String)) :=
  [("zeppelin", [("zeppelin", "deployment")]),
   ("superset", [("superset", "deployment"), ("superset-redis", "statefulset")])]

/-- A world in which every StatefulSet and Deployment is fully ready, the two tool
services exist, and only the release of superset exists. -/
def supersetOnlyWorld : World :=
  { toolServiceWorld with
    getStatefulSet := fun _ _ _ => .ok ⟨some 1, 1, 0⟩
    getDeployment := fun _ _ _ => .ok ⟨some 1, 1, 0⟩
    CheckHelmReleaseExist := fun name _ => decide (name = "nineinfra-superset") }

/-- A world whose StatefulSets have 2 of 3 replicas ready and were created 90
seconds ago, whose Deployments have 10 of 12 ready and were created 76 hours ago,
and whose PostgreSQL clusters have 0 of 1 ready and a creation timestamp 5 seconds
ahead of the clock. -/
def agesWorld : World :=
  worldOf (fun _ => .ok ⟨some 3, 2, 1700000000 * Second - 90 * Second⟩)
    (fun _ => .ok ⟨some 12, 10, 1700000000 * Second - 76 * Hour⟩)
    (fun _ => .ok ⟨1, 0, 1700000000 * Second + 5 * Second⟩)
    (fun _ => .error errNotFound) (fun _ => true)

/-! ## Strings -/

theorem str_ne_empty_iff (s : String) : s ≠ "" ↔ s.data ≠ [] := by
  constructor
  · intro h hd; apply h; exact String.ext hd
  · intro h hs; apply h; rw [hs]

theorem append_ne_empty_right (a b : String) (h : b ≠ "") : a ++ b ≠ "" := by
  have hb := (str_ne_empty_iff b).1 h
  apply (str_ne_empty_iff _).2
  rw [String.data_append]
  intro hab
  exact hb (List.append_eq_nil.1 hab).2

theorem append_ne_empty_left (a b : String) (h : a ≠ "") : a ++ b ≠ "" := by
  have ha := (str_ne_empty_iff a).1 h
  apply (str_ne_empty_iff _).2
  rw [String.data_append]
  intro hab
  exact ha (List.append_eq_nil.1 hab).1

theorem length_ne_zero_iff (s : String) : s.length ≠ 0 ↔ s ≠ "" := by
  rw [str_ne_empty_iff]
  cases s with
  | mk l => cases l <;> simp [String.length]

theorem ite_ne_empty {c : Prop} [Decidable c] {a b : String} (ha : a ≠ "") (hb : b ≠ "") :
    (if c then a else b) ≠ "" := by
  split <;> assumption

/-- The age text of the library is never empty, whatever the duration. -/
theorem HumanDuration_ne_empty (d : Int) : duration.HumanDuration d ≠ "" := by
  unfold duration.HumanDuration
  simp only []
  repeat' apply ite_ne_empty
  all_goals first
    | decide
    | (apply append_ne_empty_right; decide)

/-- A ready text of the form `r/d` is never empty. -/
theorem ready_ne_empty (r d : Int) : fmtD r ++ "/" ++ fmtD d ≠ "" := by
  apply append_ne_empty_left
  apply append_ne_empty_right
  decide

/-! ## Age text -/

theorem Second_eq : Second = 1000000000 := rfl

theorem Minute_eq : Minute = 60000000000 := by decide

theorem Hour_eq : Hour = 3600000000000 := by decide

theorem maxDuration_eq : maxDuration = 9223372036854775807 := by decide

theorem minDuration_eq : minDuration = -9223372036854775808 := by decide

/-- The saturating difference of two instants: the difference itself inside the
range of a duration, the nearer end of the range outside it. -/
theorem timeSub_eq (t u : Int) :
    timeSub t u = max minDuration (min (t - u) maxDuration) := by
  unfold timeSub
  rw [maxDuration_eq, minDuration_eq]
  split_ifs <;> omega

/-- For a duration that is not negative, the age text in terms of floor division. -/
theorem HumanDuration_nonneg (d : Int) (h : 0 ≤ d) :
    duration.HumanDuration d =
      if d / 1000000000 < 120 then fmtD (d / 1000000000) ++ "s"
      else if d / 60000000000 < 10 then
        if d / 1000000000 % 60 = 0 then fmtD (d / 60000000000) ++ "m"
        else fmtD (d / 60000000000) ++ "m" ++ fmtD (d / 1000000000 % 60) ++ "s"
      else if d / 60000000000 < 180 then fmtD (d / 60000000000) ++ "m"
      else if d / 3600000000000 < 8 then
        if d / 60000000000 % 60 = 0 then fmtD (d / 3600000000000) ++ "h"
        else fmtD (d / 3600000000000) ++ "h" ++ fmtD (d / 60000000000 % 60) ++ "m"
      else if d / 3600000000000 < 48 then fmtD (d / 3600000000000) ++ "h"
      else if d / 3600000000000 < 192 then
        if d / 3600000000000 % 24 = 0 then fmtD (d / 3600000000000 / 24) ++ "d"
        else fmtD (d / 3600000000000 / 24) ++ "d" ++ fmtD (d / 3600000000000 % 24) ++ "h"
      else if d / 3600000000000 < 17520 then fmtD (d / 3600000000000 / 24) ++ "d"
      else if d / 3600000000000 < 70080 then
        if d / 3600000000000 / 24 % 365 = 0 then fmtD (d / 3600000000000 / 24 / 365) ++ "y"
        else fmtD (d / 3600000000000 / 24 / 365) ++ "y" ++
          fmtD (d / 3600000000000 / 24 % 365) ++ "d"
      else fmtD (d / 3600000000000 / 24 / 365) ++ "y" := by
  have e1 : d.tdiv Second = d / 1000000000 := Int.tdiv_eq_ediv h (by decide)
  have e2 : d.tdiv Minute = d / 60000000000 := Int.tdiv_eq_ediv h (by decide)
  have e3 : d.tdiv Hour = d / 3600000000000 := Int.tdiv_eq_ediv h (by decide)
  have n1 : 0 ≤ d / 1000000000 := Int.ediv_nonneg h (by decide)
  have n2 : 0 ≤ d / 60000000000 := Int.ediv_nonneg h (by decide)
  have n3 : 0 ≤ d / 3600000000000 := Int.ediv_nonneg h (by decide)
  have n4 : 0 ≤ d / 3600000000000 / 24 := Int.ediv_nonneg n3 (by decide)
  have e4 : (d / 1000000000).tmod 60 = d / 1000000000 % 60 := Int.tmod_eq_emod n1 (by decide)
  have e5 : (d / 60000000000).tmod 60 = d / 60000000000 % 60 := Int.tmod_eq_emod n2 (by decide)
  have e6 : (d / 3600000000000).tmod 24 = d / 3600000000000 % 24 :=
    Int.tmod_eq_emod n3 (by decide)
  have e7 : (d / 3600000000000).tdiv 24 = d / 3600000000000 / 24 :=
    Int.tdiv_eq_ediv n3 (by decide)
  have e8 : (d / 3600000000000 / 24).tmod 365 = d / 3600000000000 / 24 % 365 :=
    Int.tmod_eq_emod n4 (by decide)
  have e9 : (d / 3600000000000 / 24).tdiv 365 = d / 3600000000000 / 24 / 365 :=
    Int.tdiv_eq_ediv n4 (by decide)
  have c1 : ¬ d / 1000000000 < -1 := by omega
  have c2 : ¬ d / 1000000000 < 0 := by omega
  unfold duration.HumanDuration
  simp only [e1, e2, e3, e4, e5, e6, e7, e8, e9, c1, c2, if_false]
  rfl

/-- A duration of two seconds or more into the past is reported as invalid. -/
theorem HumanDuration_invalid (d : Int) (h : d ≤ -2000000000) :
    duration.HumanDuration d = "<invalid>" := by
  have e : d.tdiv Second = -((-d) / 1000000000) := by
    have h1 : d = -(-d) := by omega
    conv_lhs => rw [h1, Int.neg_tdiv]
    rw [Int.tdiv_eq_ediv (by omega) (by decide)]
    rfl
  have c : d.tdiv Second < -1 := by
    rw [e]
    omega
  unfold duration.HumanDuration
  simp only [c, if_true]

/-- A duration less than two seconds into the past is reported as "0s". -/
theorem HumanDuration_just_before (d : Int) (h1 : -2000000000 < d) (h2 : d < 0) :
    duration.HumanDuration d = "0s" := by
  have e : d.tdiv Second = -((-d) / 1000000000) := by
    have h1 : d = -(-d) := by omega
    conv_lhs => rw [h1, Int.neg_tdiv]
    rw [Int.tdiv_eq_ediv (by omega) (by decide)]
    rfl
  have c : ¬ d.tdiv Second < -1 := by
    rw [e]
    omega
  unfold duration.HumanDuration
  simp only [c, if_false]
  by_cases c2 : d.tdiv Second < 0
  · simp only [c2, if_true]
  · have c3 : d.tdiv Second = 0 := by
      rw [e] at c2 ⊢
      omega
    have c4 : ¬ ((0 : Int) < 0) := by decide
    have c5 : (0 : Int) < 60 * 2 := by decide
    simp only [c3, c4, c5, if_true, if_false]
    decide

/-- The age text by the size of the duration: seconds below two minutes, minutes
(with seconds below ten minutes) below three hours, hours (with minutes below
eight hours) below two days, days (with hours below eight days) below two years,
years (with days below eight years) from there on. -/
theorem HumanDuration_regimes (d : Int) :
    (d ≤ -2 * Second → duration.HumanDuration d = "<invalid>") ∧
    (-2 * Second < d → d < 0 → duration.HumanDuration d = "0s") ∧
    (0 ≤ d → d < 120 * Second → duration.HumanDuration d = fmtD (d / Second) ++ "s") ∧
    (120 * Second ≤ d → d < 10 * Minute →
      duration.HumanDuration d =
        if d / Second % 60 = 0 then fmtD (d / Minute) ++ "m"
        else fmtD (d / Minute) ++ "m" ++ fmtD (d / Second % 60) ++ "s") ∧
    (10 * Minute ≤ d → d < 3 * Hour → duration.HumanDuration d = fmtD (d / Minute) ++ "m") ∧
    (3 * Hour ≤ d → d < 8 * Hour →
      duration.HumanDuration d =
        if d / Minute % 60 = 0 then fmtD (d / Hour) ++ "h"
        else fmtD (d / Hour) ++ "h" ++ fmtD (d / Minute % 60) ++ "m") ∧
    (8 * Hour ≤ d → d < 48 * Hour → duration.HumanDuration d = fmtD (d / Hour) ++ "h") ∧
    (48 * Hour ≤ d → d < 192 * Hour →
      duration.HumanDuration d =
        if d / Hour % 24 = 0 then fmtD (d / Hour / 24) ++ "d"
        else fmtD (d / Hour / 24) ++ "d" ++ fmtD (d / Hour % 24) ++ "h") ∧
    (192 * Hour ≤ d → d < 17520 * Hour →
      duration.HumanDuration d = fmtD (d / Hour / 24) ++ "d") ∧
    (17520 * Hour ≤ d → d < 70080 * Hour →
      duration.HumanDuration d =
        if d / Hour / 24 % 365 = 0 then fmtD (d / Hour / 24 / 365) ++ "y"
        else fmtD (d / Hour / 24 / 365) ++ "y" ++ fmtD (d / Hour / 24 % 365) ++ "d") ∧
    (70080 * Hour ≤ d → duration.HumanDuration d = fmtD (d / Hour / 24 / 365) ++ "y") := by
  simp only [Second_eq, Minute_eq, Hour_eq]
  refine ⟨?_, ?_, ?_, ?_, ?_, ?_, ?_, ?_, ?_, ?_, ?_⟩
  · intro h
    exact HumanDuration_invalid d (by omega)
  · intro h1 h2
    exact HumanDuration_just_before d (by omega) h2
  · intro h1 h2
    have c1 : d / 1000000000 < 120 := by omega
    rw [HumanDuration_nonneg d h1, if_pos c1]
  · intro h1 h2
    have c1 : ¬ d / 1000000000 < 120 := by omega
    have c2 : d / 60000000000 < 10 := by omega
    rw [HumanDuration_nonneg d (by omega), if_neg c1, if_pos c2]
  · intro h1 h2
    have c1 : ¬ d / 1000000000 < 120 := by omega
    have c2 : ¬ d / 60000000000 < 10 := by omega
    have c3 : d / 60000000000 < 180 := by omega
    rw [HumanDuration_nonneg d (by omega), if_neg c1, if_neg c2, if_pos c3]
  · intro h1 h2
    have c1 : ¬ d / 1000000000 < 120 := by omega
    have c2 : ¬ d / 60000000000 < 10 := by omega
    have c3 : ¬ d / 60000000000 < 180 := by omega
    have c4 : d / 3600000000000 < 8 := by omega
    rw [HumanDuration_nonneg d (by omega), if_neg c1, if_neg c2, if_neg c3, if_pos c4]
  · intro h1 h2
    have c1 : ¬ d / 1000000000 < 120 := by omega
    have c2 : ¬ d / 60000000000 < 10 := by omega
    have c3 : ¬ d / 60000000000 < 180 := by omega
    have c4 : ¬ d / 3600000000000 < 8 := by omega
    have c5 : d / 3600000000000 < 48 := by omega
    rw [HumanDuration_nonneg d (by omega), if_neg c1, if_neg c2, if_neg c3, if_neg c4,
      if_pos c5]
  · intro h1 h2
    have c1 : ¬ d / 1000000000 < 120 := by omega
    have c2 : ¬ d / 60000000000 < 10 := by omega
    have c3 : ¬ d / 60000000000 < 180 := by omega
    have c4 : ¬ d / 3600000000000 < 8 := by omega
    have c5 : ¬ d / 3600000000000 < 48 := by omega
    have c6 : d / 3600000000000 < 192 := by omega
    rw [HumanDuration_nonneg d (by omega), if_neg c1, if_neg c2, if_neg c3, if_neg c4,
      if_neg c5, if_pos c6]
  · intro h1 h2
    have c1 : ¬ d / 1000000000 < 120 := by omega
    have c2 : ¬ d / 60000000000 < 10 := by omega
    have c3 : ¬ d / 60000000000 < 180 := by omega
    have c4 : ¬ d / 3600000000000 < 8 := by omega
    have c5 : ¬ d / 3600000000000 < 48 := by omega
    have c6 : ¬ d / 3600000000000 < 192 := by omega
    have c7 : d / 3600000000000 < 17520 := by omega
    rw [HumanDuration_nonneg d (by omega), if_neg c1, if_neg c2, if_neg c3, if_neg c4,
      if_neg c5, if_neg c6, if_pos c7]
  · intro h1 h2
    have c1 : ¬ d / 1000000000 < 120 := by omega
    have c2 : ¬ d / 60000000000 < 10 := by omega
    have c3 : ¬ d / 60000000000 < 180 := by omega
    have c4 : ¬ d / 3600000000000 < 8 := by omega
    have c5 : ¬ d / 3600000000000 < 48 := by omega
    have c6 : ¬ d / 3600000000000 < 192 := by omega
    have c7 : ¬ d / 3600000000000 < 17520 := by omega
    have c8 : d / 3600000000000 < 70080 := by omega
    rw [HumanDuration_nonneg d (by omega), if_neg c1, if_neg c2, if_neg c3, if_neg c4,
      if_neg c5, if_neg c6, if_neg c7, if_pos c8]
  · intro h1
    have c1 : ¬ d / 1000000000 < 120 := by omega
    have c2 : ¬ d / 60000000000 < 10 := by omega
    have c3 : ¬ d / 60000000000 < 180 := by omega
    have c4 : ¬ d / 3600000000000 < 8 := by omega
    have c5 : ¬ d / 3600000000000 < 48 := by omega
    have c6 : ¬ d / 3600000000000 < 192 := by omega
    have c7 : ¬ d / 3600000000000 < 17520 := by omega
    have c8 : ¬ d / 3600000000000 < 70080 := by omega
    rw [HumanDuration_nonneg d (by omega), if_neg c1, if_neg c2, if_neg c3, if_neg c4,
      if_neg c5, if_neg c6, if_neg c7, if_neg c8]

/-! ## Shell helper -/

/-- C10: `runCommand` returns the captured stdout and stderr unchanged and
separately; the error it returns is nil whenever stdout is non-empty, whatever the
process error was, and is the process error when stdout is empty; so it reports an
error exactly when the process reported one and wrote nothing to stdout. -/
theorem C10_runCommand_error_suppressed_by_output (run : String → List String → ProcResult)
    (command : String) (args : List String) :
    ((run command args).output ≠ "" →
      runCommand run command args =
        ((run command args).output, (run command args).errput, none)) ∧
    ((run command args).output = "" →
      runCommand run command args =
        ((run command args).output, (run command args).errput, (run command args).err)) ∧
    ((runCommand run command args).2.2 ≠ none ↔
      ((run command args).err ≠ none ∧ (run command args).output = "")) ∧
    (runCommand run command args).1 = (run command args).output ∧
    (runCommand run command args).2.1 = (run command args).errput := by
  have hlen := length_ne_zero_iff (run command args).output
  refine ⟨?_, ?_, ?_, rfl, rfl⟩
  · intro h
    simp [runCommand, hlen.2 h]
  · intro h
    simp [runCommand, h]
  · by_cases h : (run command args).output = ""
    · simp [runCommand, h]
    · simp [runCommand, hlen.2 h, h]

/-- C10 at a command that printed "v3.14.0" and exited with status 1, and at one
that printed nothing and exited with status 1. -/
theorem C10_runCommand_witness :
    runCommand (fun _ _ => ⟨"v3.14.0", "warn", some ⟨"exit status 1", false⟩⟩)
        "helm" ["version"] = ("v3.14.0", "warn", none) ∧
    runCommand (fun _ _ => ⟨"", "not found", some ⟨"exit status 1", false⟩⟩)
        "helm" ["status", "nine"] = ("", "not found", some ⟨"exit status 1", false⟩) :=
  ⟨(C10_runCommand_error_suppressed_by_output
      (fun _ _ => ⟨"v3.14.0", "warn", some ⟨"exit status 1", false⟩⟩)
      "helm" ["version"]).1 (by decide),
   (C10_runCommand_error_suppressed_by_output
      (fun _ _ => ⟨"", "not found", some ⟨"exit status 1", false⟩⟩)
      "helm" ["status", "nine"]).2.1 rfl⟩

/-! ## Readiness checkers -/

/-- When `CheckStsIfReady` returns, and with what: it returns true exactly when the
client is built, the StatefulSet is fetched, its `Spec.Replicas` is set and equals
the ready count. -/
theorem CheckStsIfReady_true_iff (w : World) (name ns : String) :
    CheckStsIfReady w name ns = some true ↔
      ∃ cl sts d, GetKubeClient w w.kubeconfig = .ok cl ∧
        w.getStatefulSet cl ns name = .ok sts ∧ sts.Replicas = some d ∧
        sts.ReadyReplicas = d := by
  unfold CheckStsIfReady
  constructor
  · intro h
    split at h
    · simp at h
    · rename_i cl hcl
      split at h
      · simp at h
      · rename_i sts hsts
        split at h
        · simp at h
        · rename_i d hd
          simp at h
          exact ⟨cl, sts, d, hcl, hsts, hd, h⟩
  · rintro ⟨cl, sts, d, hcl, hsts, hd, h⟩
    simp [hcl, hsts, hd, h]

/-- The check of a StatefulSet panics exactly when the fetched object has a nil
`Spec.Replicas`. -/
theorem CheckStsIfReady_none_iff (w : World) (name ns : String) :
    CheckStsIfReady w name ns = none ↔
      ∃ cl sts, GetKubeClient w w.kubeconfig = .ok cl ∧
        w.getStatefulSet cl ns name = .ok sts ∧ sts.Replicas = none := by
  unfold CheckStsIfReady
  constructor
  · intro h
    split at h
    · simp at h
    · rename_i cl hcl
      split at h
      · simp at h
      · rename_i sts hsts
        split at h
        · exact ⟨cl, sts, hcl, hsts, by assumption⟩
        · simp at h
  · rintro ⟨cl, sts, hcl, hsts, hd⟩
    simp [hcl, hsts, hd]

/-- The check of a Deployment returns true exactly when the client is built, the
Deployment is fetched, its `Spec.Replicas` is set and equals the ready count. -/
theorem CheckDeployIfReady_true_iff (w : World) (name ns : String) :
    CheckDeployIfReady w name ns = some true ↔
      ∃ cl dep d, GetKubeClient w w.kubeconfig = .ok cl ∧
        w.getDeployment cl ns name = .ok dep ∧ dep.Replicas = some d ∧
        dep.ReadyReplicas = d := by
  unfold CheckDeployIfReady
  constructor
  · intro h
    split at h
    · simp at h
    · rename_i cl hcl
      split at h
      · simp at h
      · rename_i dep hdep
        split at h
        · simp at h
        · rename_i d hd
          simp at h
          exact ⟨cl, dep, d, hcl, hdep, hd, h⟩
  · rintro ⟨cl, dep, d, hcl, hdep, hd, h⟩
    simp [hcl, hdep, hd, h]

/-- The check of a Deployment panics exactly when the fetched object has a nil
`Spec.Replicas`. -/
theorem CheckDeployIfReady_none_iff (w : World) (name ns : String) :
    CheckDeployIfReady w name ns = none ↔
      ∃ cl dep, GetKubeClient w w.kubeconfig = .ok cl ∧
        w.getDeployment cl ns name = .ok dep ∧ dep.Replicas = none := by
  unfold CheckDeployIfReady
  constructor
  · intro h
    split at h
    · simp at h
    · rename_i cl hcl
      split at h
      · simp at h
      · rename_i dep hdep
        split at h
        · exact ⟨cl, dep, hcl, hdep, by assumption⟩
        · simp at h
  · rintro ⟨cl, dep, hcl, hdep, hd⟩
    simp [hcl, hdep, hd]

/-- The check of a PostgreSQL cluster always returns, and returns true exactly when
the client is built, the cluster is fetched and its ready instances equal its
declared instances. -/
theorem CheckPGClusterIfReady_true_iff (w : World) (name ns : String) :
    CheckPGClusterIfReady w name ns = true ↔
      ∃ cl pg, GetPGOperatorClient w w.kubeconfig = .ok cl ∧
        w.getPGCluster cl ns name = .ok pg ∧ pg.ReadyInstances = pg.Instances := by
  unfold CheckPGClusterIfReady IfPGReady
  constructor
  · intro h
    split at h
    · simp at h
    · rename_i cl hcl
      split at h
      · simp at h
      · rename_i pg hpg
        simp at h
        exact ⟨cl, pg, hcl, hpg, h⟩
  · rintro ⟨cl, pg, hcl, hpg, h⟩
    simp [hcl, hpg, h]

/-- C1, evaluated where it fails: a StatefulSet and a Deployment that the fetch
finds with a nil `Spec.Replicas` make `CheckStsIfReady` and `CheckDeployIfReady`
panic on the dereference (no boolean is returned), while on the same cluster
`CheckPGClusterIfReady`, whose desired count is not a pointer, returns false. -/
theorem C1_nil_replicas_checker_panics :
    CheckStsIfReady nilReplicasWorld "nine-minio" "default" = none ∧
    CheckDeployIfReady nilReplicasWorld "nine-kyuubi" "default" = none ∧
    CheckPGClusterIfReady nilReplicasWorld "nine-pg" "default" = false := by
  decide

/-! ## Status formatters -/

/-- The three outcomes of a fetch exclude each other and cover every case. -/
theorem fetch_outcomes_partition {α : Type} (client : Except GoError RestConfig)
    (get : RestConfig → Except GoError α) :
    (fetchNotFound client get ∨ fetchOtherError client get ∨ fetchFound client get) ∧
    ¬ (fetchNotFound client get ∧ fetchOtherError client get) ∧
    ¬ (fetchNotFound client get ∧ fetchFound client get) ∧
    ¬ (fetchOtherError client get ∧ fetchFound client get) := by
  unfold fetchNotFound fetchOtherError fetchFound
  cases client with
  | error e => simp
  | ok cl =>
    cases hg : get cl with
    | error e =>
      cases hn : IsNotFound e <;> simp [hg, hn]
    | ok x => simp [hg]

/-- C3: each status formatter returns exactly ("0/0", "0s") when the fetch fails
with a not-found error, and two empty strings when client construction fails or
the fetch fails with any other error; not-found, other-error and found exclude
each other and cover every state of the cluster. -/
theorem C3_formatter_absent_and_unknown (w : World) (name ns : String) :
    (fetchNotFound (GetKubeClient w w.kubeconfig) (fun cl => w.getStatefulSet cl ns name) →
      PrintStsReadyAndAge w name ns = some ("0/0", "0s")) ∧
    (fetchOtherError (GetKubeClient w w.kubeconfig) (fun cl => w.getStatefulSet cl ns name) →
      PrintStsReadyAndAge w name ns = some ("", "")) ∧
    (fetchNotFound (GetKubeClient w w.kubeconfig) (fun cl => w.getDeployment cl ns name) →
      PrintDeployReadyAndAge w name ns = some ("0/0", "0s")) ∧
    (fetchOtherError (GetKubeClient w w.kubeconfig) (fun cl => w.getDeployment cl ns name) →
      PrintDeployReadyAndAge w name ns = some ("", "")) ∧
    (fetchNotFound (GetPGOperatorClient w w.kubeconfig) (fun cl => w.getPGCluster cl ns name) →
      PrintPGClusterReadyAndAge w name ns = ("0/0", "0s")) ∧
    (fetchOtherError (GetPGOperatorClient w w.kubeconfig) (fun cl => w.getPGCluster cl ns name) →
      PrintPGClusterReadyAndAge w name ns = ("", "")) ∧
    (∀ (α : Type) (client : Except GoError RestConfig) (get : RestConfig → Except GoError α),
      (fetchNotFound client get ∨ fetchOtherError client get ∨ fetchFound client get) ∧
      ¬ (fetchNotFound client get ∧ fetchOtherError client get) ∧
      ¬ (fetchNotFound client get ∧ fetchFound client get) ∧
      ¬ (fetchOtherError client get ∧ fetchFound client get)) := by
  refine ⟨?_, ?_, ?_, ?_, ?_, ?_, fun α client get => fetch_outcomes_partition client get⟩
  · rintro ⟨cl, e, hcl, hg, hn⟩
    simp [PrintStsReadyAndAge, hcl, hg, hn]
  · rintro (⟨e, hcl⟩ | ⟨cl, e, hcl, hg, hn⟩)
    · simp [PrintStsReadyAndAge, hcl]
    · simp [PrintStsReadyAndAge, hcl, hg, hn]
  · rintro ⟨cl, e, hcl, hg, hn⟩
    simp [PrintDeployReadyAndAge, hcl, hg, hn]
  · rintro (⟨e, hcl⟩ | ⟨cl, e, hcl, hg, hn⟩)
    · simp [PrintDeployReadyAndAge, hcl]
    · simp [PrintDeployReadyAndAge, hcl, hg, hn]
  · rintro ⟨cl, e, hcl, hg, hn⟩
    simp [PrintPGClusterReadyAndAge, hcl, hg, hn]
  · rintro (⟨e, hcl⟩ | ⟨cl, e, hcl, hg, hn⟩)
    · simp [PrintPGClusterReadyAndAge, hcl]
    · simp [PrintPGClusterReadyAndAge, hcl, hg, hn]

/-- C3 on a cluster where nothing exists: the StatefulSet formatter reports
("0/0", "0s"). -/
theorem C3_formatter_witness :
    PrintStsReadyAndAge emptyWorld "nine-minio" "default" = some ("0/0", "0s") :=
  (C3_formatter_absent_and_unknown emptyWorld "nine-minio" "default").1
    ⟨⟨"https://192.168.1.10:6443"⟩, errNotFound, rfl, rfl, rfl⟩

/-- C4: for a workload that the fetch finds with ready count `r` and desired count
`d`, each status formatter returns `r/d` in decimal as its first component (2 and 3
give "2/3") and, as its second, the age text of the time from the creation
timestamp to now, and neither is empty, whatever the creation timestamp. The time
from creation to now is the difference of the two instants, saturated to the range
of a duration; the age text of a duration counts seconds below two minutes, minutes
(with seconds below ten minutes) below three hours, hours (with minutes below eight
hours) below two days, days (with hours below eight days) below two years and
years (with days below eight years) from there on, is "0s" within two seconds
before creation and "<invalid>" earlier than that. -/
theorem C4_formatter_found (w : World) (name ns : String) :
    (∀ cl sts d, GetKubeClient w w.kubeconfig = .ok cl →
      w.getStatefulSet cl ns name = .ok sts → sts.Replicas = some d →
      PrintStsReadyAndAge w name ns =
        some (fmtD sts.ReadyReplicas ++ "/" ++ fmtD d,
          duration.HumanDuration (timeSub w.now sts.CreationTimestamp)) ∧
      fmtD sts.ReadyReplicas ++ "/" ++ fmtD d ≠ "" ∧
      duration.HumanDuration (timeSub w.now sts.CreationTimestamp) ≠ "") ∧
    (∀ cl dep d, GetKubeClient w w.kubeconfig = .ok cl →
      w.getDeployment cl ns name = .ok dep → dep.Replicas = some d →
      PrintDeployReadyAndAge w name ns =
        some (fmtD dep.ReadyReplicas ++ "/" ++ fmtD d,
          duration.HumanDuration (timeSub w.now dep.CreationTimestamp)) ∧
      fmtD dep.ReadyReplicas ++ "/" ++ fmtD d ≠ "" ∧
      duration.HumanDuration (timeSub w.now dep.CreationTimestamp) ≠ "") ∧
    (∀ cl pg, GetPGOperatorClient w w.kubeconfig = .ok cl →
      w.getPGCluster cl ns name = .ok pg →
      PrintPGClusterReadyAndAge w name ns =
        (fmtD pg.ReadyInstances ++ "/" ++ fmtD pg.Instances,
          duration.HumanDuration (timeSub w.now pg.CreationTimestamp)) ∧
      fmtD pg.ReadyInstances ++ "/" ++ fmtD pg.Instances ≠ "" ∧
      duration.HumanDuration (timeSub w.now pg.CreationTimestamp) ≠ "") ∧
    fmtD 2 ++ "/" ++ fmtD 3 = "2/3" ∧
    (∀ t u : Int, timeSub t u = max minDuration (min (t - u) maxDuration)) ∧
    (∀ d : Int,
      (d ≤ -2 * Second → duration.HumanDuration d = "<invalid>") ∧
      (-2 * Second < d → d < 0 → duration.HumanDuration d = "0s") ∧
      (0 ≤ d → d < 120 * Second → duration.HumanDuration d = fmtD (d / Second) ++ "s") ∧
      (120 * Second ≤ d → d < 10 * Minute →
        duration.HumanDuration d =
          if d / Second % 60 = 0 then fmtD (d / Minute) ++ "m"
          else fmtD (d / Minute) ++ "m" ++ fmtD (d / Second % 60) ++ "s") ∧
      (10 * Minute ≤ d → d < 3 * Hour →
        duration.HumanDuration d = fmtD (d / Minute) ++ "m") ∧
      (3 * Hour ≤ d → d < 8 * Hour →
        duration.HumanDuration d =
          if d / Minute % 60 = 0 then fmtD (d / Hour) ++ "h"
          else fmtD (d / Hour) ++ "h" ++ fmtD (d / Minute % 60) ++ "m") ∧
      (8 * Hour ≤ d → d < 48 * Hour → duration.HumanDuration d = fmtD (d / Hour) ++ "h") ∧
      (48 * Hour ≤ d → d < 192 * Hour →
        duration.HumanDuration d =
          if d / Hour % 24 = 0 then fmtD (d / Hour / 24) ++ "d"
          else fmtD (d / Hour / 24) ++ "d" ++ fmtD (d / Hour % 24) ++ "h") ∧
      (192 * Hour ≤ d → d < 17520 * Hour →
        duration.HumanDuration d = fmtD (d / Hour / 24) ++ "d") ∧
      (17520 * Hour ≤ d → d < 70080 * Hour →
        duration.HumanDuration d =
          if d / Hour / 24 % 365 = 0 then fmtD (d / Hour / 24 / 365) ++ "y"
          else fmtD (d / Hour / 24 / 365) ++ "y" ++ fmtD (d / Hour / 24 % 365) ++ "d") ∧
      (70080 * Hour ≤ d →
        duration.HumanDuration d = fmtD (d / Hour / 24 / 365) ++ "y")) := by
  refine ⟨?_, ?_, ?_, by decide, timeSub_eq, HumanDuration_regimes⟩
  · intro cl sts d hcl hg hd
    refine ⟨?_, ready_ne_empty _ _, HumanDuration_ne_empty _⟩
    simp [PrintStsReadyAndAge, HumanDuration, hcl, hg, hd]
  · intro cl dep d hcl hg hd
    refine ⟨?_, ready_ne_empty _ _, HumanDuration_ne_empty _⟩
    simp [PrintDeployReadyAndAge, HumanDuration, hcl, hg, hd]
  · intro cl pg hcl hg
    refine ⟨?_, ready_ne_empty _ _, HumanDuration_ne_empty _⟩
    simp [PrintPGClusterReadyAndAge, HumanDuration, hcl, hg]

/-- C4 on a cluster whose StatefulSet has 2 of 3 replicas ready and was created 90
seconds ago, whose Deployment has 10 of 12 ready and was created 76 hours ago, and
whose PostgreSQL cluster has 0 of 1 ready and a creation timestamp 5 seconds in
the future; and on one whose StatefulSet was created an hour ago. -/
theorem C4_formatter_witness :
    PrintStsReadyAndAge agesWorld "nine-minio" "default" = some ("2/3", "90s") ∧
    PrintDeployReadyAndAge agesWorld "nine-kyuubi" "default" = some ("10/12", "3d4h") ∧
    PrintPGClusterReadyAndAge agesWorld "nine-pg" "default" = ("0/1", "<invalid>") ∧
    PrintStsReadyAndAge twoOfThreeWorld "nine-minio" "default" = some ("2/3", "60m") :=
  ⟨((C4_formatter_found agesWorld "nine-minio" "default").1
      ⟨"https://192.168.1.10:6443"⟩ ⟨some 3, 2, 1700000000 * Second - 90 * Second⟩ 3
      rfl rfl rfl).1.trans (by decide),
   ((C4_formatter_found agesWorld "nine-kyuubi" "default").2.1
      ⟨"https://192.168.1.10:6443"⟩ ⟨some 12, 10, 1700000000 * Second - 76 * Hour⟩ 12
      rfl rfl rfl).1.trans (by decide),
   ((C4_formatter_found agesWorld "nine-pg" "default").2.2.1
      ⟨"https://192.168.1.10:6443"⟩ ⟨1, 0, 1700000000 * Second + 5 * Second⟩
      rfl rfl).1.trans (by decide),
   ((C4_formatter_found twoOfThreeWorld "nine-minio" "default").1
      ⟨"https://192.168.1.10:6443"⟩ ⟨some 3, 2, 1700000000 * Second - Hour⟩ 3
      rfl rfl rfl).1.trans (by decide)⟩

/-! ## Cluster readiness -/

/-- What it takes for one entry of the project table to count as ready: the checker
of its kind returns true on the workload named after the project. -/
theorem CheckClusterIfReady_true_iff (w : World) (c : Tables) (order : List (String × String))
    (name ns : String) :
    CheckClusterIfReady w c order name ns = some true ↔
      ∀ kv ∈ order,
        (kv.2 = "statefulset" →
          CheckStsIfReady w (NineWorkLoadName c name kv.1) ns = some true) ∧
        (kv.2 = "cluster" →
          CheckPGClusterIfReady w (NineWorkLoadName c name kv.1) ns = true) := by
  induction order with
  | nil => simp [CheckClusterIfReady]
  | cons kv rest ih =>
    obtain ⟨k, v⟩ := kv
    unfold CheckClusterIfReady
    by_cases hs : v = "statefulset"
    · have hc : ¬ ("statefulset" = "cluster") := by decide
      subst hs
      cases hchk : CheckStsIfReady w (NineWorkLoadName c name k) ns with
      | none => simp [hchk]
      | some b =>
        cases b with
        | false => simp [hchk]
        | true => simp [hchk, ih, hc]
    · by_cases hc : v = "cluster"
      · subst hc
        cases hchk : CheckPGClusterIfReady w (NineWorkLoadName c name k) ns with
        | false => simp [hchk]
        | true => simp [hchk, ih, hs]
      · simp [hs, hc, ih]

/-- The cluster check returns when every StatefulSet check it may reach returns. -/
theorem CheckClusterIfReady_returns (w : World) (c : Tables) (order : List (String × String))
    (name ns : String)
    (h : ∀ kv ∈ order, kv.2 = "statefulset" →
      CheckStsIfReady w (NineWorkLoadName c name kv.1) ns ≠ none) :
    CheckClusterIfReady w c order name ns ≠ none := by
  induction order with
  | nil => simp [CheckClusterIfReady]
  | cons kv rest ih =>
    obtain ⟨k, v⟩ := kv
    have ih2 := ih (fun kv hkv => h kv (List.mem_cons_of_mem _ hkv))
    unfold CheckClusterIfReady
    by_cases hs : v = "statefulset"
    · have h1 := h (k, v) (List.mem_cons_self _ _) hs
      subst hs
      cases hchk : CheckStsIfReady w (NineWorkLoadName c name k) ns with
      | none => exact absurd hchk h1
      | some b =>
        cases b with
        | false => simp
        | true => simpa using ih2
    · by_cases hc : v = "cluster"
      · subst hc
        cases hchk : CheckPGClusterIfReady w (NineWorkLoadName c name k) ns with
        | false => simp [hs]
        | true => simpa [hs] using ih2
      · simpa [hs, hc] using ih2

/-- In whatever order the project table is visited, the cluster check returns true
exactly when every entry of the table is ready under the checker of its kind on
`NineWorkLoadName name project`; one entry that is not ready keeps the result
from being true, and makes it false when the StatefulSet checks of the table
return. -/
theorem CheckClusterIfReady_any_order (w : World) (c : Tables)
    (table order : List (String × String)) (name ns : String) (hperm : order.Perm table) :
    (CheckClusterIfReady w c order name ns = some true ↔
      ∀ kv ∈ table,
        (kv.2 = "statefulset" →
          CheckStsIfReady w (NineWorkLoadName c name kv.1) ns = some true) ∧
        (kv.2 = "cluster" →
          CheckPGClusterIfReady w (NineWorkLoadName c name kv.1) ns = true)) ∧
    ((∃ kv ∈ table,
        (kv.2 = "statefulset" ∧
          CheckStsIfReady w (NineWorkLoadName c name kv.1) ns = some false) ∨
        (kv.2 = "cluster" ∧
          CheckPGClusterIfReady w (NineWorkLoadName c name kv.1) ns = false)) →
      CheckClusterIfReady w c order name ns ≠ some true ∧
      ((∀ kv ∈ table, kv.2 = "statefulset" →
          CheckStsIfReady w (NineWorkLoadName c name kv.1) ns ≠ none) →
        CheckClusterIfReady w c order name ns = some false)) := by
  have hiff : CheckClusterIfReady w c order name ns = some true ↔
      ∀ kv ∈ table,
        (kv.2 = "statefulset" →
          CheckStsIfReady w (NineWorkLoadName c name kv.1) ns = some true) ∧
        (kv.2 = "cluster" →
          CheckPGClusterIfReady w (NineWorkLoadName c name kv.1) ns = true) := by
    rw [CheckClusterIfReady_true_iff]
    constructor
    · intro h kv hkv
      exact h kv (hperm.mem_iff.2 hkv)
    · intro h kv hkv
      exact h kv (hperm.mem_iff.1 hkv)
  refine ⟨hiff, ?_⟩
  rintro ⟨kv, hkv, hbad⟩
  have hne : CheckClusterIfReady w c order name ns ≠ some true := by
    intro htrue
    have hall := hiff.1 htrue kv hkv
    rcases hbad with ⟨hk, hf⟩ | ⟨hk, hf⟩
    · have := hall.1 hk
      rw [hf] at this
      simp at this
    · have := hall.2 hk
      rw [hf] at this
      simp at this
  refine ⟨hne, ?_⟩
  intro hret
  have hsome := CheckClusterIfReady_returns w c order name ns
    (fun kv hkv hk => hret kv (hperm.mem_iff.1 hkv) hk)
  cases hres : CheckClusterIfReady w c order name ns with
  | none => exact absurd hres hsome
  | some b =>
    cases b with
    | false => rfl
    | true => exact absurd hres hne

/-- On a cluster whose sub-workloads all have 2 of 3 ready, with the table visited
in reverse, the cluster is not ready. -/
theorem CheckClusterIfReady_any_order_not_ready :
    CheckClusterIfReady twoOfThreeWorld sampleTables sampleProjects.reverse "nine" "default"
      = some false :=
  ((CheckClusterIfReady_any_order twoOfThreeWorld sampleTables sampleProjects
      sampleProjects.reverse "nine" "default" (List.reverse_perm _)).2
    ⟨("minio", "statefulset"), by decide, Or.inl ⟨rfl, by decide⟩⟩).2
    (by decide)

/-- C2, evaluated where it fails: on a cluster whose PostgreSQL sub-workload is not
ready (it does not exist) and whose minio StatefulSet is found with a nil
`Spec.Replicas`, `CheckClusterIfReady` panics when the table is visited with minio
first, and returns false when it is visited with postgresql first; the claim has
it return false in both orders. -/
theorem C2_nil_replicas_cluster_check_panics :
    CheckPGClusterIfReady nilReplicasWorld (NineWorkLoadName sampleTables "nine" "postgresql")
      "default" = false ∧
    CheckClusterIfReady nilReplicasWorld sampleTables sampleProjects "nine" "default"
      = none ∧
    sampleProjects.reverse.Perm sampleProjects ∧
    CheckClusterIfReady nilReplicasWorld sampleTables sampleProjects.reverse "nine" "default"
      = some false :=
  ⟨by decide, by decide, List.reverse_perm _, by decide⟩

/-! ## Suggestion lookup -/

/-- The model of `strings.Contains` is the contiguous-block relation on the
characters of the two strings. -/
theorem containsChars_iff_infix (s sub : List Char) :
    containsChars s sub = true ↔ sub <:+: s := by
  induction s with
  | nil =>
    unfold containsChars
    rw [List.infix_nil, List.isEmpty_iff]
  | cons x xs ih =>
    unfold containsChars
    rw [Bool.or_eq_true, List.isPrefixOf_iff_prefix, ih, List.infix_cons_iff]

/-- The loop finds nothing exactly when no visited key is contained in the message. -/
theorem firstSuggestion_none_iff (order : List (String × String)) (msg : String) :
    firstSuggestion order msg = none ↔ ∀ kv ∈ order, Contains msg kv.1 = false := by
  induction order with
  | nil => simp [firstSuggestion]
  | cons kv rest ih =>
    obtain ⟨k, v⟩ := kv
    unfold firstSuggestion
    by_cases h : Contains msg k = true
    · simp [h]
    · simp [h, ih]

/-- What the loop finds is the hint of the first visited key contained in the
message. -/
theorem firstSuggestion_some (order : List (String × String)) (msg hint : String)
    (h : firstSuggestion order msg = some hint) :
    ∃ pre kv post, order = pre ++ kv :: post ∧
      (∀ x ∈ pre, Contains msg x.1 = false) ∧ Contains msg kv.1 = true ∧ hint = kv.2 := by
  induction order with
  | nil => simp [firstSuggestion] at h
  | cons kv rest ih =>
    obtain ⟨k, v⟩ := kv
    unfold firstSuggestion at h
    by_cases hk : Contains msg k = true
    · simp [hk] at h
      exact ⟨[], (k, v), rest, rfl, by simp, hk, h.symm⟩
    · simp [hk] at h
      obtain ⟨pre, kv, post, ho, hpre, hkv, hh⟩ := ih h
      refine ⟨(k, v) :: pre, kv, post, by simp [ho], ?_, hkv, hh⟩
      intro x hx
      rcases List.mem_cons.1 hx with rfl | hx
      · simpa using hk
      · exact hpre x hx

/-- C5, refuted as stated: with two keys that both occur in the message, a visit
that starts at the second key returns the second key's hint, not the hint of the
first key in the order the table was written. -/
theorem C5_insertion_order_counterexample :
    twoKeyVisit.Perm twoKeyTable ∧
    GiveSuggestionsByError twoKeyVisit (some errTimeout) = "retry later" ∧
    suggestionByInsertionOrder twoKeyTable (some errTimeout) = "check the network" ∧
    GiveSuggestionsByError twoKeyVisit (some errTimeout)
      ≠ suggestionByInsertionOrder twoKeyTable (some errTimeout) :=
  ⟨List.Perm.swap _ _ _, by decide, by decide, by decide⟩

/-- C5, amended: for every error and every hint table, in whatever order the table
is visited, `GiveSuggestionsByError` returns the fallback message when the error is
nil or no key of the table occurs in its message, and otherwise the hint of the
first key, in the order of the visit, that occurs in the message (a key of the
table); with the shipped one-key table, an error whose message contains
"connection timed out" gets the timeout hint and every other error the fallback. -/
theorem C5_suggestion_first_visited_match (table order : List (String × String))
    (err : Option GoError) (hperm : order.Perm table) :
    (err = none → GiveSuggestionsByError order err = fallbackSuggestion) ∧
    (∀ e, err = some e → (∀ kv ∈ table, Contains e.msg kv.1 = false) →
      GiveSuggestionsByError order err = fallbackSuggestion) ∧
    (∀ e, err = some e → (∃ kv ∈ table, Contains e.msg kv.1 = true) →
      ∃ pre kv post, order = pre ++ kv :: post ∧ kv ∈ table ∧
        (∀ x ∈ pre, Contains e.msg x.1 = false) ∧ Contains e.msg kv.1 = true ∧
        GiveSuggestionsByError order err = kv.2) ∧
    (table = Err2Suggestions → ∀ e, err = some e →
      GiveSuggestionsByError order err =
        if Contains e.msg "connection timed out" then
          "If you run the nine out of the k8s? or if the status of the NineCluster is not ready?"
        else fallbackSuggestion) := by
  refine ⟨?_, ?_, ?_, ?_⟩
  · intro h
    subst h
    rfl
  · intro e he hno
    subst he
    have : firstSuggestion order e.msg = none :=
      (firstSuggestion_none_iff order e.msg).2 (fun kv hkv => hno kv (hperm.mem_iff.1 hkv))
    simp [GiveSuggestionsByError, this]
  · rintro e he ⟨kv, hkv, hc⟩
    subst he
    cases hf : firstSuggestion order e.msg with
    | none =>
      have := (firstSuggestion_none_iff order e.msg).1 hf kv (hperm.mem_iff.2 hkv)
      rw [hc] at this
      simp at this
    | some hint =>
      obtain ⟨pre, kv2, post, ho, hpre, hkv2, hh⟩ := firstSuggestion_some order e.msg hint hf
      refine ⟨pre, kv2, post, ho, ?_, hpre, hkv2, ?_⟩
      · apply hperm.mem_iff.1
        rw [ho]
        simp
      · simp [GiveSuggestionsByError, hf, hh]
  · intro ht e he
    subst he ht
    have ho : order = Err2Suggestions := List.perm_singleton.1 hperm
    subst ho
    by_cases hc : Contains e.msg "connection timed out" = true
    · simp [GiveSuggestionsByError, Err2Suggestions, firstSuggestion, hc]
    · simp [GiveSuggestionsByError, Err2Suggestions, firstSuggestion, hc]

/-- C5 amended, on the shipped table and a connection time-out: the timeout hint. -/
theorem C5_suggestion_witness :
    GiveSuggestionsByError Err2Suggestions (some errTimeout) =
      "If you run the nine out of the k8s? or if the status of the NineCluster is not ready?" :=
  ((C5_suggestion_first_visited_match Err2Suggestions Err2Suggestions (some errTimeout)
      (List.Perm.refl _)).2.2.2 rfl errTimeout rfl).trans (by decide)

/-! ## Service access -/

theorem matchHere_digits (ps : List Atom) (prev : Option Char) (a r m : List Char)
    (ha : isDigitGroup a) (hr : ∀ x, r.head? = some x → isDigit x = false)
    (hk : matchHere ps a.getLast? r = some m) :
    matchHere (.digits13 :: ps) prev (a ++ r) = some (a ++ m) := by
  obtain ⟨h1, h3, hd⟩ := ha
  match a, h1, h3, hd, hk with
  | [x], _, _, hd, hk =>
    have hx : isDigit x = true := hd x (by simp)
    cases r with
    | nil =>
      simp [matchHere, digitsThen, hx] at hk ⊢
      simp [hk]
    | cons y ys =>
      have hy : isDigit y = false := hr y rfl
      simp [matchHere, digitsThen, hx, hy] at hk ⊢
      simp [hk]
  | [x, x2], _, _, hd, hk =>
    have hx : isDigit x = true := hd x (by simp)
    have hx2 : isDigit x2 = true := hd x2 (by simp)
    cases r with
    | nil =>
      simp [matchHere, digitsThen, hx, hx2] at hk ⊢
      simp [hk]
    | cons y ys =>
      have hy : isDigit y = false := hr y rfl
      simp [matchHere, digitsThen, hx, hx2, hy] at hk ⊢
      simp [hk]
  | [x, x2, x3], _, _, hd, hk =>
    have hx : isDigit x = true := hd x (by simp)
    have hx2 : isDigit x2 = true := hd x2 (by simp)
    have hx3 : isDigit x3 = true := hd x3 (by simp)
    simp [matchHere, digitsThen, hx, hx2, hx3] at hk ⊢
    simp [hk]
  | _ :: _ :: _ :: _ :: _, _, h3, _, _ => simp at h3
  | [], h1, _, _, _ => simp at h1

theorem isDigit_isWordChar (x : Char) (h : isDigit x = true) : isWordChar x = true := by
  simp [isWordChar, h]

theorem isDigit_false_of_not_word (x : Char) (h : isWordChar x = false) : isDigit x = false := by
  cases hd : isDigit x with
  | false => rfl
  | true => rw [isDigit_isWordChar x hd] at h; exact absurd h (by simp)

theorem isDigitGroup_head (a : List Char) (ha : isDigitGroup a) (r : List Char) :
    ∃ x, (a ++ r).head? = some x ∧ isDigit x = true := by
  obtain ⟨h1, _, hd⟩ := ha
  cases a with
  | nil => simp at h1
  | cons x xs => exact ⟨x, rfl, hd x (by simp)⟩

theorem isDigitGroup_last (a : List Char) (ha : isDigitGroup a) :
    ∃ x, a.getLast? = some x ∧ isDigit x = true := by
  obtain ⟨h1, _, hd⟩ := ha
  have hne : a ≠ [] := by
    intro h; rw [h] at h1; simp at h1
  exact ⟨a.getLast hne, List.getLast?_eq_getLast _ hne, hd _ (List.getLast_mem hne)⟩

theorem matchHere_dot (ps : List Atom) (prev : Option Char) (r m : List Char)
    (hk : matchHere ps (some '.') r = some m) :
    matchHere (.dot :: ps) prev ('.' :: r) = some ('.' :: m) := by
  simp [matchHere, hk]

theorem matchHere_boundary (ps : List Atom) (prev : Option Char) (s : List Char)
    (h : isWordAt prev ≠ isWordAt s.head?) :
    matchHere (.boundary :: ps) prev s = matchHere ps prev s := by
  simp [matchHere, h]

/-- The expression matches a dotted quad standing between two non-word positions,
and the match is the whole quad. -/
theorem matchHere_quad (prev : Option Char) (a b c d post : List Char)
    (hprev : isWordAt prev = false)
    (ha : isDigitGroup a) (hb : isDigitGroup b) (hc : isDigitGroup c) (hd : isDigitGroup d)
    (hpost : isWordAt post.head? = false) :
    matchHere ipPattern prev (a ++ '.' :: (b ++ '.' :: (c ++ '.' :: (d ++ post))))
      = some (a ++ '.' :: (b ++ '.' :: (c ++ '.' :: d))) := by
  have hdot : ∀ (r : List Char) (x : Char), ('.' :: r).head? = some x → isDigit x = false := by
    intro r x hx
    simp at hx
    subst hx
    decide
  have hpost2 : ∀ x, post.head? = some x → isDigit x = false := by
    intro x hx
    rw [hx] at hpost
    exact isDigit_false_of_not_word x hpost
  unfold ipPattern
  rw [matchHere_boundary]
  · have e4 : matchHere [.boundary] d.getLast? post = some [] := by
      obtain ⟨x, hx, hxd⟩ := isDigitGroup_last d hd
      rw [matchHere_boundary]
      · simp [matchHere]
      · rw [hx, hpost]
        simp [isWordAt, isDigit_isWordChar x hxd]
    have e3 := matchHere_digits [.boundary] (some '.') d post [] hd hpost2 e4
    have e3d := matchHere_dot _ c.getLast? _ _ e3
    have e2 := matchHere_digits _ (some '.') c _ _ hc (hdot _) e3d
    have e2d := matchHere_dot _ b.getLast? _ _ e2
    have e1 := matchHere_digits _ (some '.') b _ _ hb (hdot _) e2d
    have e1d := matchHere_dot _ a.getLast? _ _ e1
    have e0 := matchHere_digits _ prev a _ _ ha (hdot _) e1d
    simpa using e0
  · obtain ⟨x, hx, hxd⟩ := isDigitGroup_head a ha ('.' :: (b ++ '.' :: (c ++ '.' :: (d ++ post))))
    rw [hx, hprev]
    simp [isWordAt, isDigit_isWordChar x hxd]

/-- The expression cannot match at a character that is not a digit. -/
theorem matchHere_nondigit (prev : Option Char) (x : Char) (xs : List Char)
    (hx : isDigit x = false) : matchHere ipPattern prev (x :: xs) = none := by
  unfold ipPattern
  simp [matchHere, digitsThen, hx]

/-- Scanning skips a stretch of text that holds no digit. -/
theorem findFrom_skip (pre s : List Char) (prev : Option Char)
    (hpre : ∀ x ∈ pre, isDigit x = false) :
    findFrom prev (pre ++ s) = findFrom (if pre = [] then prev else pre.getLast?) s := by
  induction pre generalizing prev with
  | nil => simp
  | cons x xs ih =>
    have hx : isDigit x = false := hpre x (by simp)
    have hxs : ∀ y ∈ xs, isDigit y = false := fun y hy => hpre y (by simp [hy])
    rw [List.cons_append, findFrom, matchHere_nondigit prev x _ hx]
    simp only []
    rw [ih (some x) hxs]
    cases xs with
    | nil => simp
    | cons y ys => simp [List.getLast?_cons_cons]

theorem findFrom_of_match (prev : Option Char) (s m : List Char)
    (h : matchHere ipPattern prev s = some m) : findFrom prev s = some m := by
  cases s with
  | nil => simpa [findFrom] using h
  | cons x xs => simp [findFrom, h]

/-- In a host text made of a digit-free lead that does not end in a word character,
a dotted quad, and a tail that does not begin with a word character, `FindString`
returns the dotted quad. -/
theorem FindString_quad (pre a b c d post : String)
    (hpre : ∀ x ∈ pre.data, isDigit x = false)
    (hprev : isWordAt pre.data.getLast? = false)
    (ha : isDigitGroup a.data) (hb : isDigitGroup b.data)
    (hc : isDigitGroup c.data) (hd : isDigitGroup d.data)
    (hpost : isWordAt post.data.head? = false) :
    FindString (pre ++ a ++ "." ++ b ++ "." ++ c ++ "." ++ d ++ post)
      = a ++ "." ++ b ++ "." ++ c ++ "." ++ d := by
  have hdata : (pre ++ a ++ "." ++ b ++ "." ++ c ++ "." ++ d ++ post).data
      = pre.data ++ (a.data ++ '.' :: (b.data ++ '.' :: (c.data ++ '.' :: (d.data ++ post.data)))) := by
    simp [String.data_append, List.append_assoc]
  have hprev2 : (if pre.data = [] then none else pre.data.getLast?) = pre.data.getLast? := by
    split
    · rename_i h; rw [h]; rfl
    · rfl
  unfold FindString
  rw [hdata, findFrom_skip _ _ _ hpre, hprev2,
    findFrom_of_match _ _ _ (matchHere_quad _ _ _ _ _ _ hprev ha hb hc hd hpost)]
  apply String.ext
  simp [String.data_append, List.append_assoc]

/-- The loop over the ports returns the `Port` that the ports named `portName`
agree on, when there is such a port or the start value is already that. -/
theorem lastPort_eq (ports : List ServicePort) (portName : String) (acc p : Int)
    (hall : ∀ u ∈ ports, u.Name = portName → u.Port = p)
    (hex : acc = p ∨ ∃ u ∈ ports, u.Name = portName) :
    lastPort ports portName acc = p := by
  induction ports generalizing acc with
  | nil =>
    rcases hex with h | ⟨u, hu, _⟩
    · simpa [lastPort] using h
    · simp at hu
  | cons v rest ih =>
    unfold lastPort
    apply ih _ (fun u hu => hall u (List.mem_cons_of_mem _ hu))
    by_cases hv : v.Name = portName
    · left
      simp [hv, hall v (List.mem_cons_self _ _) hv]
    · rcases hex with h | ⟨u, hu, hn⟩
      · left
        simp [hv, h]
      · right
        rcases List.mem_cons.1 hu with rfl | hu
        · exact absurd hn hv
        · exact ⟨u, hu, hn⟩

/-- The loop over the ports returns the `NodePort` that the ports named `portName`
agree on, when there is such a port or the start value is already that. -/
theorem lastNodePort_eq (ports : List ServicePort) (portName : String) (acc p : Int)
    (hall : ∀ u ∈ ports, u.Name = portName → u.NodePort = p)
    (hex : acc = p ∨ ∃ u ∈ ports, u.Name = portName) :
    lastNodePort ports portName acc = p := by
  induction ports generalizing acc with
  | nil =>
    rcases hex with h | ⟨u, hu, _⟩
    · simpa [lastNodePort] using h
    · simp at hu
  | cons v rest ih =>
    unfold lastNodePort
    apply ih _ (fun u hu => hall u (List.mem_cons_of_mem _ hu))
    by_cases hv : v.Name = portName
    · left
      simp [hv, hall v (List.mem_cons_self _ _) hv]
    · rcases hex with h | ⟨u, hu, hn⟩
      · left
        simp [hv, h]
      · right
        rcases List.mem_cons.1 hu with rfl | hu
        · exact absurd hn hv
        · exact ⟨u, hu, hn⟩

/-- C7: when the Service fetch succeeds, `GetSvcAccessInfo` goes by the Service's
type. For a cluster-IP Service it returns the Service's cluster IP and the `Port`
of the Service port named `portName`. For a node-port Service it returns what the
dotted-quad expression finds in the API server's host text, which is the dotted
quad of a host such as `https://192.168.1.10:6443`, and the `NodePort` of the
Service port named `portName`. The port named `portName` is any port of that name
whose value the other ports of that name share, in particular the only one. -/
theorem C7_service_access_by_type (w : World) (svcName portName ns : String)
    (cl cfg : RestConfig) (svc : Service)
    (hcl : GetKubeClientWithConfig w w.kubeconfig = .ok (cl, cfg))
    (hsvc : w.getService cl ns svcName = .ok svc) :
    (svc.SvcType = ServiceTypeClusterIP →
      (GetSvcAccessInfo w svcName portName ns).1 = svc.ClusterIP ∧
      ∀ v ∈ svc.Ports, v.Name = portName →
        (∀ u ∈ svc.Ports, u.Name = portName → u.Port = v.Port) →
        (GetSvcAccessInfo w svcName portName ns).2 = v.Port) ∧
    (svc.SvcType = ServiceTypeNodePort →
      (GetSvcAccessInfo w svcName portName ns).1 = FindString cfg.Host ∧
      (∀ pre a b c d post : String,
        cfg.Host = pre ++ a ++ "." ++ b ++ "." ++ c ++ "." ++ d ++ post →
        (∀ x ∈ pre.data, isDigit x = false) → isWordAt pre.data.getLast? = false →
        isDigitGroup a.data → isDigitGroup b.data → isDigitGroup c.data →
        isDigitGroup d.data → isWordAt post.data.head? = false →
        (GetSvcAccessInfo w svcName portName ns).1 = a ++ "." ++ b ++ "." ++ c ++ "." ++ d) ∧
      ∀ v ∈ svc.Ports, v.Name = portName →
        (∀ u ∈ svc.Ports, u.Name = portName → u.NodePort = v.NodePort) →
        (GetSvcAccessInfo w svcName portName ns).2 = v.NodePort) := by
  have hne : ¬ (ServiceTypeNodePort = ServiceTypeClusterIP) := by decide
  constructor
  · intro ht
    have h : GetSvcAccessInfo w svcName portName ns
        = (svc.ClusterIP, lastPort svc.Ports portName 0) := by
      simp [GetSvcAccessInfo, hcl, hsvc, ht]
    refine ⟨by rw [h], ?_⟩
    intro v hv hname hall
    rw [h]
    exact lastPort_eq _ _ _ _ hall (Or.inr ⟨v, hv, hname⟩)
  · intro ht
    have h : GetSvcAccessInfo w svcName portName ns
        = (FindString cfg.Host, lastNodePort svc.Ports portName 0) := by
      simp [GetSvcAccessInfo, hcl, hsvc, ht, hne]
    refine ⟨by rw [h], ?_, ?_⟩
    · intro pre a b c d post hhost hpre hprev ha hb hc hd hpost
      rw [h, hhost]
      exact FindString_quad pre a b c d post hpre hprev ha hb hc hd hpost
    · intro v hv hname hall
      rw [h]
      exact lastNodePort_eq _ _ _ _ hall (Or.inr ⟨v, hv, hname⟩)

/-- C7 on the node-port Service of zeppelin behind `https://192.168.1.10:6443`:
the access IP is 192.168.1.10 and the access port is the node port 31000. -/
theorem C7_service_access_witness :
    (GetSvcAccessInfo toolServiceWorld "nineinfra-zeppelin" "web" "default").1
      = "192.168.1.10" ∧
    (GetSvcAccessInfo toolServiceWorld "nineinfra-zeppelin" "web" "default").2 = 31000 :=
  ⟨(((C7_service_access_by_type toolServiceWorld "nineinfra-zeppelin" "web" "default"
        ⟨"https://192.168.1.10:6443"⟩ ⟨"https://192.168.1.10:6443"⟩
        ⟨ServiceTypeNodePort, "10.96.0.20", [⟨"web", 8080, 31000⟩]⟩ rfl rfl).2 rfl).2.1
      "https://" "192" "168" "1" "10" ":6443" (by decide) (by decide) (by decide)
      (by decide) (by decide) (by decide) (by decide) (by decide)).trans (by decide),
   ((C7_service_access_by_type toolServiceWorld "nineinfra-zeppelin" "web" "default"
        ⟨"https://192.168.1.10:6443"⟩ ⟨"https://192.168.1.10:6443"⟩
        ⟨ServiceTypeNodePort, "10.96.0.20", [⟨"web", 8080, 31000⟩]⟩ rfl rfl).2 rfl).2.2
      ⟨"web", 8080, 31000⟩ (by decide) rfl (by decide)⟩

/-- C6: with (ip, port) what `GetSvcAccessInfo` returns for the tool's service and
port name, `PrintToolAccessInfo` returns `protocol://ip:port` when the tool has a
non-empty protocol in `NineToolPortProtocolList`, and `ip:port` otherwise, the port
in decimal. -/
theorem C6_tool_access_format (w : World) (c : Tables) (name ns : String) :
    (mapGet c.NineToolPortProtocolList name ≠ "" →
      PrintToolAccessInfo w c name ns =
        mapGet c.NineToolPortProtocolList name ++ "://" ++
          (GetSvcAccessInfo w (NineToolResourceName c (mapGet c.NineToolSvcList name))
            (mapGet c.NineToolPortNameList name) ns).1 ++ ":" ++
          fmtD (GetSvcAccessInfo w (NineToolResourceName c (mapGet c.NineToolSvcList name))
            (mapGet c.NineToolPortNameList name) ns).2) ∧
    (mapGet c.NineToolPortProtocolList name = "" →
      PrintToolAccessInfo w c name ns =
        (GetSvcAccessInfo w (NineToolResourceName c (mapGet c.NineToolSvcList name))
            (mapGet c.NineToolPortNameList name) ns).1 ++ ":" ++
          fmtD (GetSvcAccessInfo w (NineToolResourceName c (mapGet c.NineToolSvcList name))
            (mapGet c.NineToolPortNameList name) ns).2) := by
  constructor
  · intro h
    simp [PrintToolAccessInfo, h]
  · intro h
    simp [PrintToolAccessInfo, h]

/-- C6 on a node-port tool with node port 31000 and no protocol, and on a
cluster-IP tool with protocol "http". -/
theorem C6_tool_access_witness :
    PrintToolAccessInfo toolServiceWorld sampleTables "zeppelin" "default"
      = "192.168.1.10:31000" ∧
    PrintToolAccessInfo toolServiceWorld sampleTables "superset" "default"
      = "http://10.96.0.15:8088" :=
  ⟨((C6_tool_access_format toolServiceWorld sampleTables "zeppelin" "default").2
      (by decide)).trans (by decide),
   ((C6_tool_access_format toolServiceWorld sampleTables "superset" "default").1
      (by decide)).trans (by decide)⟩

/-! ## Project list -/

theorem mem_push_rows (x r : Row) (p : Printed) :
    x ∈ (p.push r).rows ↔ x = r ∨ x ∈ p.rows := by
  simp [Printed.push]

/-- A StatefulSet formatter that returns gives two empty strings or two non-empty
strings, never one of each. -/
theorem PrintStsReadyAndAge_both_or_neither (w : World) (name ns ready age : String)
    (h : PrintStsReadyAndAge w name ns = some (ready, age)) :
    (ready = "" ∧ age = "") ∨ (ready ≠ "" ∧ age ≠ "") := by
  unfold PrintStsReadyAndAge at h
  split at h
  · simp at h
    exact Or.inl ⟨h.1.symm, h.2.symm⟩
  · split at h
    · split at h
      · simp at h
        obtain ⟨h1, h2⟩ := h
        subst h1 h2
        exact Or.inr ⟨by decide, by decide⟩
      · simp at h
        exact Or.inl ⟨h.1.symm, h.2.symm⟩
    · split at h
      · simp at h
      · simp at h
        obtain ⟨h1, h2⟩ := h
        subst h1 h2
        exact Or.inr ⟨ready_ne_empty _ _, HumanDuration_ne_empty _⟩

/-- The PostgreSQL formatter gives two empty strings or two non-empty strings. -/
theorem PrintPGClusterReadyAndAge_both_or_neither (w : World) (name ns ready age : String)
    (h : PrintPGClusterReadyAndAge w name ns = (ready, age)) :
    (ready = "" ∧ age = "") ∨ (ready ≠ "" ∧ age ≠ "") := by
  unfold PrintPGClusterReadyAndAge at h
  split at h
  · simp at h
    exact Or.inl ⟨h.1.symm, h.2.symm⟩
  · split at h
    · split at h
      · simp at h
        obtain ⟨h1, h2⟩ := h
        subst h1 h2
        exact Or.inr ⟨by decide, by decide⟩
      · simp at h
        exact Or.inl ⟨h.1.symm, h.2.symm⟩
    · simp at h
      obtain ⟨h1, h2⟩ := h
      subst h1 h2
      exact Or.inr ⟨ready_ne_empty _ _, HumanDuration_ne_empty _⟩

theorem projectFormatter_both_or_neither (w : World) (c : Tables)
    (name ns k v ready age : String)
    (h : projectFormatter w c name ns k v = some (ready, age)) :
    (ready = "" ∧ age = "") ∨ (ready ≠ "" ∧ age ≠ "") := by
  unfold projectFormatter at h
  split at h
  · exact PrintStsReadyAndAge_both_or_neither _ _ _ _ _ h
  · split at h
    · simp at h
      exact PrintPGClusterReadyAndAge_both_or_neither _ _ _ _ _ h
    · simp at h

/-- Every printed project row comes from an entry of the table whose formatter
returned the two non-empty strings that the row shows. -/
theorem PrintClusterProjectList_row_sound (w : World) (c : Tables)
    (order : List (String × String)) (name ns : String) (row : Row)
    (h : row ∈ (PrintClusterProjectList w c order name ns).rows) :
    ∃ k v ready age, (k, v) ∈ order ∧
      row = ⟨NineWorkLoadName c name k, k, v, ready, age⟩ ∧
      projectFormatter w c name ns k v = some (ready, age) ∧ ready ≠ "" ∧ age ≠ "" := by
  induction order with
  | nil => simp [PrintClusterProjectList] at h
  | cons kv rest ih =>
    obtain ⟨k, v⟩ := kv
    have lift : (∃ k v ready age, (k, v) ∈ rest ∧
        row = ⟨NineWorkLoadName c name k, k, v, ready, age⟩ ∧
        projectFormatter w c name ns k v = some (ready, age) ∧ ready ≠ "" ∧ age ≠ "") →
        ∃ k2 v2 ready age, (k2, v2) ∈ (k, v) :: rest ∧
        row = ⟨NineWorkLoadName c name k2, k2, v2, ready, age⟩ ∧
        projectFormatter w c name ns k2 v2 = some (ready, age) ∧ ready ≠ "" ∧ age ≠ "" := by
      rintro ⟨k2, v2, r, a, hm, hr⟩
      exact ⟨k2, v2, r, a, List.mem_cons_of_mem _ hm, hr⟩
    unfold PrintClusterProjectList at h
    by_cases hs : v = "statefulset"
    · rw [if_pos hs] at h
      cases hf : PrintStsReadyAndAge w (NineWorkLoadName c name k) ns with
      | none => simp [hf] at h
      | some ra =>
        obtain ⟨ready, age⟩ := ra
        simp only [hf] at h
        by_cases hne : ready ≠ "" ∧ age ≠ ""
        · rw [if_pos hne, mem_push_rows] at h
          rcases h with h | h
          · exact ⟨k, v, ready, age, List.mem_cons_self _ _, h,
              by simp [projectFormatter, hs, hf], hne.1, hne.2⟩
          · exact lift (ih h)
        · rw [if_neg hne] at h
          exact lift (ih h)
    · rw [if_neg hs] at h
      by_cases hc : v = "cluster"
      · rw [if_pos hc] at h
        cases hf : PrintPGClusterReadyAndAge w (NineWorkLoadName c name k) ns with
        | mk ready age =>
          simp only [hf] at h
          by_cases hne : ready ≠ "" ∧ age ≠ ""
          · rw [if_pos hne, mem_push_rows] at h
            rcases h with h | h
            · exact ⟨k, v, ready, age, List.mem_cons_self _ _, h,
                by simp [projectFormatter, hs, hc, hf], hne.1, hne.2⟩
            · exact lift (ih h)
          · rw [if_neg hne] at h
            exact lift (ih h)
      · rw [if_neg hc] at h
        exact lift (ih h)

/-- A project that the loop reaches and whose formatter returns two non-empty
strings gets its row, whatever happens at the entries visited after it. -/
theorem PrintClusterProjectList_row_complete (w : World) (c : Tables)
    (pre post : List (String × String)) (k v name ns ready age : String)
    (hreach : ∀ e ∈ pre, e.2 = "statefulset" →
      PrintStsReadyAndAge w (NineWorkLoadName c name e.1) ns ≠ none)
    (hf : projectFormatter w c name ns k v = some (ready, age))
    (hr : ready ≠ "") (ha : age ≠ "") :
    (⟨NineWorkLoadName c name k, k, v, ready, age⟩ : Row) ∈
      (PrintClusterProjectList w c (pre ++ (k, v) :: post) name ns).rows := by
  induction pre with
  | nil =>
    rw [List.nil_append]
    unfold PrintClusterProjectList
    unfold projectFormatter at hf
    by_cases hs : v = "statefulset"
    · rw [if_pos hs] at hf
      rw [if_pos hs]
      simp only [hf]
      rw [if_pos ⟨hr, ha⟩, mem_push_rows]
      exact Or.inl rfl
    · rw [if_neg hs] at hf
      rw [if_neg hs]
      by_cases hc : v = "cluster"
      · rw [if_pos hc] at hf
        rw [if_pos hc]
        simp only [Option.some.injEq] at hf
        simp only [hf]
        rw [if_pos ⟨hr, ha⟩, mem_push_rows]
        exact Or.inl rfl
      · rw [if_neg hc] at hf
        simp at hf
  | cons e rest ih =>
    obtain ⟨k2, v2⟩ := e
    have ih2 := ih (fun e he => hreach e (List.mem_cons_of_mem _ he))
    rw [List.cons_append]
    unfold PrintClusterProjectList
    by_cases hs : v2 = "statefulset"
    · rw [if_pos hs]
      have hret := hreach (k2, v2) (List.mem_cons_self _ _) hs
      cases hf2 : PrintStsReadyAndAge w (NineWorkLoadName c name k2) ns with
      | none => exact absurd hf2 hret
      | some ra =>
        obtain ⟨r2, a2⟩ := ra
        simp only []
        by_cases hne : r2 ≠ "" ∧ a2 ≠ ""
        · rw [if_pos hne, mem_push_rows]
          exact Or.inr ih2
        · rw [if_neg hne]
          exact ih2
    · rw [if_neg hs]
      by_cases hc : v2 = "cluster"
      · rw [if_pos hc]
        cases hf2 : PrintPGClusterReadyAndAge w (NineWorkLoadName c name k2) ns with
        | mk r2 a2 =>
          simp only []
          by_cases hne : r2 ≠ "" ∧ a2 ≠ ""
          · rw [if_pos hne, mem_push_rows]
            exact Or.inr ih2
          · rw [if_neg hne]
            exact ih2
      · rw [if_neg hc]
        exact ih2

/-- For a declared project that the loop reaches (the formatters of the entries
visited before it returned), the project list has the project's row exactly when
the status formatter of the project's kind returned two non-empty strings, and the
row shows them; when the formatter returned, the row is omitted exactly when it
returned two empty strings. So a reached workload that is not found gets a row with
"0/0" and "0s", and one whose fetch failed with another error gets no row. -/
theorem PrintClusterProjectList_row_iff (w : World) (c : Tables)
    (pre post : List (String × String)) (k v name ns : String)
    (hreach : ∀ e ∈ pre, e.2 = "statefulset" →
      PrintStsReadyAndAge w (NineWorkLoadName c name e.1) ns ≠ none) :
    (∀ ready age,
      (⟨NineWorkLoadName c name k, k, v, ready, age⟩ : Row) ∈
          (PrintClusterProjectList w c (pre ++ (k, v) :: post) name ns).rows ↔
        projectFormatter w c name ns k v = some (ready, age) ∧ ready ≠ "" ∧ age ≠ "") ∧
    (∀ ready age, projectFormatter w c name ns k v = some (ready, age) →
      ((∀ r a, (⟨NineWorkLoadName c name k, k, v, r, a⟩ : Row) ∉
          (PrintClusterProjectList w c (pre ++ (k, v) :: post) name ns).rows) ↔
        ready = "" ∧ age = "")) ∧
    (v = "statefulset" →
      fetchNotFound (GetKubeClient w w.kubeconfig)
        (fun cl => w.getStatefulSet cl ns (NineWorkLoadName c name k)) →
      (⟨NineWorkLoadName c name k, k, v, "0/0", "0s"⟩ : Row) ∈
        (PrintClusterProjectList w c (pre ++ (k, v) :: post) name ns).rows) ∧
    (v = "cluster" →
      fetchNotFound (GetPGOperatorClient w w.kubeconfig)
        (fun cl => w.getPGCluster cl ns (NineWorkLoadName c name k)) →
      (⟨NineWorkLoadName c name k, k, v, "0/0", "0s"⟩ : Row) ∈
        (PrintClusterProjectList w c (pre ++ (k, v) :: post) name ns).rows) ∧
    (v = "statefulset" →
      fetchOtherError (GetKubeClient w w.kubeconfig)
        (fun cl => w.getStatefulSet cl ns (NineWorkLoadName c name k)) →
      ∀ r a, (⟨NineWorkLoadName c name k, k, v, r, a⟩ : Row) ∉
        (PrintClusterProjectList w c (pre ++ (k, v) :: post) name ns).rows) ∧
    (v = "cluster" →
      fetchOtherError (GetPGOperatorClient w w.kubeconfig)
        (fun cl => w.getPGCluster cl ns (NineWorkLoadName c name k)) →
      ∀ r a, (⟨NineWorkLoadName c name k, k, v, r, a⟩ : Row) ∉
        (PrintClusterProjectList w c (pre ++ (k, v) :: post) name ns).rows) := by
  have hiff : ∀ ready age,
      (⟨NineWorkLoadName c name k, k, v, ready, age⟩ : Row) ∈
          (PrintClusterProjectList w c (pre ++ (k, v) :: post) name ns).rows ↔
        projectFormatter w c name ns k v = some (ready, age) ∧ ready ≠ "" ∧ age ≠ "" := by
    intro ready age
    constructor
    · intro h
      obtain ⟨k2, v2, r2, a2, _, hrow, hf, hr, ha⟩ :=
        PrintClusterProjectList_row_sound w c _ name ns _ h
      simp only [Row.mk.injEq] at hrow
      obtain ⟨_, hk, hv, hr2, ha2⟩ := hrow
      subst hk hv hr2 ha2
      exact ⟨hf, hr, ha⟩
    · rintro ⟨hf, hr, ha⟩
      exact PrintClusterProjectList_row_complete w c pre post k v name ns ready age hreach hf hr ha
  have hempty : ∀ ready age, projectFormatter w c name ns k v = some (ready, age) →
      ready = "" → age = "" →
      ∀ r a, (⟨NineWorkLoadName c name k, k, v, r, a⟩ : Row) ∉
        (PrintClusterProjectList w c (pre ++ (k, v) :: post) name ns).rows := by
    intro ready age hf hr _ r a hmem
    obtain ⟨hf2, hr2, _⟩ := (hiff r a).1 hmem
    rw [hf] at hf2
    simp only [Option.some.injEq, Prod.mk.injEq] at hf2
    exact hr2 (hf2.1 ▸ hr)
  refine ⟨hiff, ?_, ?_, ?_, ?_, ?_⟩
  · intro ready age hf
    constructor
    · intro hno
      rcases projectFormatter_both_or_neither w c name ns k v ready age hf with h | h
      · exact h
      · exact absurd ((hiff ready age).2 ⟨hf, h.1, h.2⟩) (hno ready age)
    · rintro ⟨hr, ha⟩
      exact hempty ready age hf hr ha
  · rintro hs ⟨cl, e, hcl, hg, hn⟩
    apply (hiff "0/0" "0s").2
    refine ⟨?_, by decide, by decide⟩
    simp [projectFormatter, hs, PrintStsReadyAndAge, hcl, hg, hn]
  · rintro hc ⟨cl, e, hcl, hg, hn⟩
    have hs : ¬ ("cluster" = "statefulset") := by decide
    apply (hiff "0/0" "0s").2
    refine ⟨?_, by decide, by decide⟩
    simp [projectFormatter, hc, hs, PrintPGClusterReadyAndAge, hcl, hg, hn]
  · intro hs hother
    apply hempty "" "" _ rfl rfl
    rcases hother with ⟨e, hcl⟩ | ⟨cl, e, hcl, hg, hn⟩
    · simp [projectFormatter, hs, PrintStsReadyAndAge, hcl]
    · simp [projectFormatter, hs, PrintStsReadyAndAge, hcl, hg, hn]
  · intro hc hother
    have hs : ¬ ("cluster" = "statefulset") := by decide
    apply hempty "" "" _ rfl rfl
    rcases hother with ⟨e, hcl⟩ | ⟨cl, e, hcl, hg, hn⟩
    · simp [projectFormatter, hc, hs, PrintPGClusterReadyAndAge, hcl]
    · simp [projectFormatter, hc, hs, PrintPGClusterReadyAndAge, hcl, hg, hn]

/-- On a cluster whose minio StatefulSet does not exist and whose PostgreSQL
fetch times out, minio gets the row with "0/0" and "0s", postgresql gets no row. -/
theorem PrintClusterProjectList_row_iff_absent_and_timeout :
    (⟨"nine-nine-minio", "minio", "statefulset", "0/0", "0s"⟩ : Row) ∈
      (PrintClusterProjectList absentAndTimeoutWorld sampleTables sampleProjects
        "nine" "default").rows ∧
    ∀ r a, (⟨"nine-nine-pg", "postgresql", "cluster", r, a⟩ : Row) ∉
      (PrintClusterProjectList absentAndTimeoutWorld sampleTables sampleProjects
        "nine" "default").rows :=
  ⟨(PrintClusterProjectList_row_iff absentAndTimeoutWorld sampleTables []
      [("postgresql", "cluster")] "minio" "statefulset" "nine" "default"
      (by simp)).2.2.1 rfl
      ⟨⟨"https://192.168.1.10:6443"⟩, errNotFound, rfl, rfl, rfl⟩,
   (PrintClusterProjectList_row_iff absentAndTimeoutWorld sampleTables
      [("minio", "statefulset")] [] "postgresql" "cluster" "nine" "default"
      (by decide)).2.2.2.2.2 rfl
      (Or.inr ⟨⟨"https://192.168.1.10:6443"⟩, errTimeout, rfl, rfl, rfl⟩)⟩

/-- C9, evaluated where it fails: on a cluster whose PostgreSQL cluster is not
found, so that its formatter returns "0/0" and "0s", and whose minio StatefulSet
is found with a nil `Spec.Replicas`, `PrintClusterProjectList` visiting minio first
panics in the StatefulSet formatter before any row is printed, and the postgresql
row that the claim promises is missing; visiting postgresql first it prints that
row and then panics. -/
theorem C9_nil_replicas_project_list_panics :
    PrintPGClusterReadyAndAge nilReplicasWorld
      (NineWorkLoadName sampleTables "nine" "postgresql") "default" = ("0/0", "0s") ∧
    PrintStsReadyAndAge nilReplicasWorld
      (NineWorkLoadName sampleTables "nine" "minio") "default" = none ∧
    PrintClusterProjectList nilReplicasWorld sampleTables sampleProjects "nine" "default"
      = { rows := [], returned := false } ∧
    PrintClusterProjectList nilReplicasWorld sampleTables sampleProjects.reverse
        "nine" "default"
      = { rows := [⟨"nine-nine-pg", "postgresql", "cluster", "0/0", "0s"⟩],
          returned := false } := by
  decide

/-! ## Tool list -/

/-- Every printed tool row is the row of a tool of the table whose release probe
succeeded. -/
theorem PrintClusterToolList_row_sound (w : World) (c : Tables)
    (tools : List (String × List (String × String))) (name ns : String) (row : Row)
    (h : row ∈ (PrintClusterToolList w c tools name ns).rows) :
    ∃ k v, (k, v) ∈ tools ∧ row.c2 = k ∧
      w.CheckHelmReleaseExist (NineToolResourceName c k) ns = true := by
  induction tools with
  | nil => simp [PrintClusterToolList] at h
  | cons kv rest ih =>
    obtain ⟨k, v⟩ := kv
    have lift : (∃ k v, (k, v) ∈ rest ∧ row.c2 = k ∧
        w.CheckHelmReleaseExist (NineToolResourceName c k) ns = true) →
        ∃ k2 v2, (k2, v2) ∈ (k, v) :: rest ∧ row.c2 = k2 ∧
        w.CheckHelmReleaseExist (NineToolResourceName c k2) ns = true := by
      rintro ⟨k2, v2, hm, hr⟩
      exact ⟨k2, v2, List.mem_cons_of_mem _ hm, hr⟩
    unfold PrintClusterToolList at h
    cases hp : w.CheckHelmReleaseExist (NineToolResourceName c k) ns with
    | false =>
      simp only [hp, Bool.not_false, if_true] at h
      exact lift (ih h)
    | true =>
      simp only [hp, Bool.not_true, Bool.false_eq_true, if_false] at h
      cases hcnt : countReadys w c v ns 0 0 with
      | none => simp [hcnt] at h
      | some rn =>
        obtain ⟨readys, notreadys⟩ := rn
        simp only [hcnt] at h
        by_cases hne : readys ≠ 0 ∨ notreadys ≠ 0
        · rw [if_pos hne, mem_push_rows] at h
          rcases h with h | h
          · exact ⟨k, v, List.mem_cons_self _ _, by rw [h], hp⟩
          · exact lift (ih h)
        · rw [if_neg hne] at h
          exact lift (ih h)

/-- The tool list is what it would be with the tools whose release probe fails
struck from the table. -/
theorem PrintClusterToolList_filter (w : World) (c : Tables)
    (tools : List (String × List (String × String))) (name ns : String) :
    PrintClusterToolList w c tools name ns =
      PrintClusterToolList w c
        (tools.filter (fun kv => w.CheckHelmReleaseExist (NineToolResourceName c kv.1) ns))
        name ns := by
  induction tools with
  | nil => rfl
  | cons kv rest ih =>
    obtain ⟨k, v⟩ := kv
    cases hp : w.CheckHelmReleaseExist (NineToolResourceName c k) ns with
    | false =>
      rw [List.filter_cons_of_neg (by simp [hp])]
      rw [← ih]
      conv_lhs => unfold PrintClusterToolList
      simp [hp]
    | true =>
      rw [List.filter_cons_of_pos (by simp [hp])]
      conv_lhs => unfold PrintClusterToolList
      conv_rhs => unfold PrintClusterToolList
      simp only [hp, Bool.not_true, Bool.false_eq_true, if_false]
      rw [← ih]

/-- C8: `PrintClusterToolList` prints a row for a tool only when the release probe
`CheckHelmReleaseExist (NineToolResourceName tool) namespace` succeeds: every row
is the row of a tool of the table whose probe succeeded, a tool whose probe fails
has no row, and the whole outcome is the one for the table without the tools whose
probe fails, so that neither their sub-workloads nor the readiness of these play
any part. -/
theorem C8_tool_rows_gated_by_release (w : World) (c : Tables)
    (tools : List (String × List (String × String))) (name ns : String) :
    (∀ row ∈ (PrintClusterToolList w c tools name ns).rows,
      ∃ k v, (k, v) ∈ tools ∧ row.c2 = k ∧
        w.CheckHelmReleaseExist (NineToolResourceName c k) ns = true) ∧
    (∀ k, w.CheckHelmReleaseExist (NineToolResourceName c k) ns = false →
      ∀ row ∈ (PrintClusterToolList w c tools name ns).rows, row.c2 ≠ k) ∧
    PrintClusterToolList w c tools name ns =
      PrintClusterToolList w c
        (tools.filter (fun kv => w.CheckHelmReleaseExist (NineToolResourceName c kv.1) ns))
        name ns := by
  refine ⟨fun row h => PrintClusterToolList_row_sound w c tools name ns row h, ?_,
    PrintClusterToolList_filter w c tools name ns⟩
  intro k hk row hrow heq
  obtain ⟨k2, _, _, hk2, hp⟩ := PrintClusterToolList_row_sound w c tools name ns row hrow
  rw [heq] at hk2
  subst hk2
  rw [hk] at hp
  simp at hp

/-- C8 on a cluster where every sub-workload is ready and only the release of
superset exists: zeppelin has no row, and the one row printed is superset's. -/
theorem C8_tool_rows_witness :
    (∀ row ∈ (PrintClusterToolList supersetOnlyWorld sampleTables sampleTools
        "nine" "default").rows, row.c2 ≠ "zeppelin") ∧
    PrintClusterToolList supersetOnlyWorld sampleTables sampleTools "nine" "default" =
      { rows := [⟨"nine", "superset", "2/2", "default", "http://10.96.0.15:8088"⟩],
        returned := true } ∧
    CheckDeployIfReady supersetOnlyWorld (NineToolResourceName sampleTables "zeppelin")
      "default" = some true :=
  ⟨(C8_tool_rows_gated_by_release supersetOnlyWorld sampleTables sampleTools
      "nine" "default").2.1 "zeppelin" (by decide),
   by decide, by decide⟩

end cmd
